import Mathlib

/-!
Verification development for the behavioral-experiment runner
(`app10.py`): the balanced condition-assignment algorithm
(`create_condition_assignment`) and the per-trial stage sequencer
(`submit_question`, `submit_survey`, `submit_edited_question`, the
stage timers and the event logger), shallowly embedded in Lean.

Python strings are modelled by `String`; the Python string operations
the code uses (`strip`, `lower`, `in`, `split`, `replace`) are
re-implemented by structural recursion over `String.data` so that all
definitions evaluate inside the kernel.  Python dicts are modelled by
insertion-ordered association lists (`dictInsert` keeps the position
of an existing key and appends a new one, exactly like a Python dict).
The process-wide `random` generator is modelled by a stream of draws
(`List Nat`); `random.seed` replaces the stream by one computed from
the seed, and `random.shuffle` is the Fisher-Yates loop of CPython,
consuming one draw per step.  Wall-clock reads (`time.time()`,
`datetime.now()`) are modelled by a logical clock in the session
state that every read ticks.
-/

/-- Python `str.strip()` restricted to whitespace: drop leading and
trailing whitespace characters. -/
def pyStrip (s : String) : String :=
  ⟨((s.data.dropWhile Char.isWhitespace).reverse.dropWhile Char.isWhitespace).reverse⟩

/-- Python `str.lower()`: lower-case every character. -/
def pyLower (s : String) : String :=
  ⟨s.data.map Char.toLower⟩

/-- Does the character list `hay` start with `pat`? Helper for the
Python substring test. -/
def startsWithChars : List Char → List Char → Bool
  | _, [] => true
  | [], _ :: _ => false
  | a :: as, b :: bs => a = b && startsWithChars as bs

/-- Substring occurrence on character lists. Helper for Python `in`. -/
def containsChars : List Char → List Char → Bool
  | [], pat => pat.isEmpty
  | hay@(_ :: rest), pat => startsWithChars hay pat || containsChars rest pat

/-- Python `pat in s` on strings. -/
def strContains (s pat : String) : Bool :=
  containsChars s.data pat.data

/-- Helper of `pySplitWs`: split into whitespace-separated words,
accumulating the current word in reverse. -/
def splitWsAux : List Char → List Char → List String
  | [], acc => if acc.isEmpty then [] else [⟨acc.reverse⟩]
  | c :: cs, acc =>
    if c.isWhitespace then
      if acc.isEmpty then splitWsAux cs [] else ⟨acc.reverse⟩ :: splitWsAux cs []
    else splitWsAux cs (c :: acc)

/-- Python `str.split()` with no separator: split on whitespace runs,
discarding empty pieces. -/
def pySplitWs (s : String) : List String :=
  splitWsAux s.data []

/-- The chained `text.replace('?', '').replace('.', '').replace(',', '')`
of `get_content_words`: removing single characters is filtering them out. -/
def removePunct (s : String) : String :=
  ⟨s.data.filter (fun c => !(c = '?' || c = '.' || c = ','))⟩

/-- Python dict update `d[k] = v` on an insertion-ordered association
list: an existing key keeps its position, a new key is appended. -/
def dictInsert {α β : Type} [DecidableEq α] (d : List (α × β)) (k : α) (v : β) :
    List (α × β) :=
  if d.any (fun p => decide (p.1 = k)) then
    d.map (fun p => if p.1 = k then (k, v) else p)
  else d ++ [(k, v)]

/-- Python `d.get(k)`: value of the first (hence only) binding of `k`. -/
def dictLookup {α β : Type} [DecidableEq α] (d : List (α × β)) (k : α) : Option β :=
  (d.find? (fun p => decide (p.1 = k))).map (·.2)

/-- Python `d.get(k, default)`. -/
def dictGetD {α β : Type} [DecidableEq α] (d : List (α × β)) (k : α) (v : β) : β :=
  (dictLookup d k).getD v

/-- Python `k in d`. -/
def dictMem {α β : Type} [DecidableEq α] (d : List (α × β)) (k : α) : Bool :=
  d.any (fun p => decide (p.1 = k))

/-! ## The random-generator model and `random.shuffle` -/

/-- One step of a linear congruential generator; the concrete
constants are irrelevant to every verified property. -/
def lcg (x : Nat) : Nat := (x * 1103515245 + 12345) % 2 ^ 31

/-- A stream of `n` LCG draws from state `x`. -/
def lcgStream (x : Nat) : Nat → List Nat
  | 0 => []
  | n + 1 => lcg x :: lcgStream (lcg x) n

/-- Model of `random.seed(s)`: the process-wide generator state is
replaced by a stream fully determined by the seed.  (CPython uses a
Mersenne Twister; any deterministic function of the seed gives the
same verified guarantees, since the balance properties below hold for
every draw stream and determinism needs only that the stream is a
function of the seed.)  40 draws suffice: 5 shuffles of 9 elements. -/
def seedStream (s : Int) : List Nat := lcgStream (s.natAbs % 2 ^ 31) 40

/-- The exchange step `x[i], x[j] = x[j], x[i]` of `random.shuffle`. -/
def swapList (xs : List Nat) (i j : Nat) : List Nat :=
  match xs[i]?, xs[j]? with
  | some a, some b => (xs.set i b).set j a
  | _, _ => xs

/-- The loop of CPython's `random.shuffle`:
`for i in reversed(range(1, len(x))): j = randbelow(i+1); swap x[i], x[j]`.
`randbelow(n)` is modelled by the next draw reduced mod `n`; the first
argument is the loop counter `i`. -/
def shuffleAux : Nat → List Nat → List Nat → List Nat × List Nat
  | 0, xs, e => (xs, e)
  | i + 1, xs, e => shuffleAux i (swapList xs (i + 1) (e.headD 0 % (i + 2))) e.tail

/-- `random.shuffle(xs)` with draw stream `e`; returns the shuffled
list and the remaining stream. -/
def pyShuffle (xs : List Nat) (e : List Nat) : List Nat × List Nat :=
  shuffleAux (xs.length - 1) xs e

/-! ## `create_condition_assignment` (app10.py lines 273-298) -/

/-- The fixed condition list of `create_condition_assignment`. -/
def conditions : List String := ["related", "unrelated", "no_feedback"]

/-- The contiguous index block of one topic:
`list(range(topic * 9, topic * 9 + 9))`. -/
def topicBlock (topic : Nat) : List Nat := List.range' (topic * 9) 9

/-- The inner loop
`for i, para_idx in enumerate(topic_paragraphs): condition_mapping[para_idx] = conditions[i // 3]`,
with `i` threaded explicitly. -/
def assignBlockGo (d : List (Nat × String)) (i : Nat) : List Nat → List (Nat × String)
  | [] => d
  | p :: rest => assignBlockGo (dictInsert d p (conditions.getD (i / 3) "")) (i + 1) rest

/-- Assign conditions to one shuffled topic block, starting at `i = 0`. -/
def assignBlock (d : List (Nat × String)) (ps : List Nat) : List (Nat × String) :=
  assignBlockGo d 0 ps

/-- One iteration of `for topic in range(5)`: shuffle the topic's
block and assign, threading the mapping and the draw stream. -/
def assignStep (acc : List (Nat × String) × List Nat) (topic : Nat) :
    List (Nat × String) × List Nat :=
  (assignBlock acc.1 (pyShuffle (topicBlock topic) acc.2).1,
   (pyShuffle (topicBlock topic) acc.2).2)

/-- The whole topic loop of `create_condition_assignment`, run on a
given draw stream. -/
def assignTopics (e : List Nat) : List (Nat × String) :=
  ((List.range 5).foldl assignStep ([], e)).1

/-- The draw stream actually used: `random.seed(seed)` resets it when a
seed is given, otherwise the ambient process-wide stream is consumed. -/
def mappingEntropy (ambient : List Nat) (seed : Option Int) : List Nat :=
  match seed with
  | some s => seedStream s
  | none => ambient

/-- `create_condition_assignment(total_paragraphs, condition_randomization_seed)`:
note the body hard-codes 5 topics of 9 paragraphs and ignores
`total_paragraphs`, exactly like the source. -/
def createConditionAssignment (total_paragraphs : Nat) (ambient : List Nat)
    (condition_randomization_seed : Option Int) : List (Nat × String) :=
  assignTopics (mappingEntropy ambient condition_randomization_seed)

/-! ## The shuffle produces a permutation -/

theorem count_swapList (xs : List Nat) (i j c : Nat) :
    (swapList xs i j).count c = xs.count c := by
  unfold swapList
  cases hi : xs[i]? with
  | none => simp
  | some a =>
    cases hj : xs[j]? with
    | none => simp
    | some b =>
      obtain ⟨hilt, hia⟩ := List.getElem?_eq_some.1 hi
      obtain ⟨hjlt, hjb⟩ := List.getElem?_eq_some.1 hj
      have hjlt' : j < (xs.set i b).length := by simpa using hjlt
      have hgb : (xs.set i b)[j] = b := by
        by_cases hij : i = j
        · subst hij
          rw [List.getElem_set_self]
        · rw [List.getElem_set_ne hij]
          exact hjb
      have h1 : (xs.set i b).count c =
          (xs.count c - if (xs[i] == c) = true then 1 else 0) +
            if (b == c) = true then 1 else 0 :=
        List.count_set b c xs i hilt
      have h2 : ((xs.set i b).set j a).count c =
          ((xs.set i b).count c - if ((xs.set i b)[j] == c) = true then 1 else 0) +
            if (a == c) = true then 1 else 0 :=
        List.count_set a c (xs.set i b) j hjlt'
      rw [h2, h1, hgb, hia]
      have hac : a = c → 1 ≤ xs.count c := by
        intro h
        subst h
        have : a ∈ xs := hia ▸ List.getElem_mem hilt
        exact List.count_pos_iff.2 this
      simp only [beq_iff_eq]
      by_cases h₁ : a = c <;> by_cases h₂ : b = c <;>
        simp only [h₁, h₂, if_pos, if_neg, if_true, if_false] <;> omega

theorem swapList_perm (xs : List Nat) (i j : Nat) : (swapList xs i j).Perm xs :=
  List.perm_iff_count.2 (fun c => count_swapList xs i j c)

theorem shuffleAux_perm (i : Nat) :
    ∀ (xs : List Nat) (e : List Nat), (shuffleAux i xs e).1.Perm xs := by
  induction i with
  | zero => intro xs e; exact List.Perm.refl xs
  | succ i ih =>
    intro xs e
    exact (ih _ e.tail).trans (swapList_perm xs (i + 1) (e.headD 0 % (i + 2)))

theorem pyShuffle_perm (xs e : List Nat) : (pyShuffle xs e).1.Perm xs :=
  shuffleAux_perm (xs.length - 1) xs e

/-! ## Decomposing the mapping into labelled blocks -/

/-- The pairs one block contributes to the mapping: the `i`-th element
of the shuffled block is labelled `conditions[i // 3]`. -/
def labelPairs (i : Nat) : List Nat → List (Nat × String)
  | [] => []
  | p :: rest => (p, conditions.getD (i / 3) "") :: labelPairs (i + 1) rest

/-- The draw stream remaining before topic `t` is processed. -/
def entropyAt (e : List Nat) : Nat → List Nat
  | 0 => e
  | t + 1 => (pyShuffle (topicBlock t) (entropyAt e t)).2

/-- The shuffled index list of topic `t` in the run with draw stream `e`. -/
def blockPerm (e : List Nat) (t : Nat) : List Nat :=
  (pyShuffle (topicBlock t) (entropyAt e t)).1

theorem blockPerm_perm (e : List Nat) (t : Nat) :
    (blockPerm e t).Perm (topicBlock t) :=
  pyShuffle_perm _ _

theorem blockPerm_nodup (e : List Nat) (t : Nat) : (blockPerm e t).Nodup :=
  ((blockPerm_perm e t).nodup_iff).2 (by simpa [topicBlock] using List.nodup_range' (t * 9) 9)

theorem length_blockPerm (e : List Nat) (t : Nat) : (blockPerm e t).length = 9 := by
  simpa [topicBlock] using (blockPerm_perm e t).length_eq

theorem mem_blockPerm {e : List Nat} {t p : Nat} :
    p ∈ blockPerm e t ↔ t * 9 ≤ p ∧ p < t * 9 + 9 := by
  rw [(blockPerm_perm e t).mem_iff]
  simp only [topicBlock, List.mem_range']
  constructor
  · rintro ⟨i, hi, rfl⟩
    omega
  · rintro ⟨h1, h2⟩
    exact ⟨p - t * 9, by omega, by omega⟩

theorem labelPairs_map_fst (i : Nat) (P : List Nat) :
    (labelPairs i P).map Prod.fst = P := by
  induction P generalizing i with
  | nil => rfl
  | cons p rest ih => simp [labelPairs, ih]

theorem length_labelPairs (i : Nat) (P : List Nat) :
    (labelPairs i P).length = P.length := by
  induction P generalizing i with
  | nil => rfl
  | cons p rest ih => simp [labelPairs, ih]

theorem fst_mem_of_mem_labelPairs {i : Nat} {P : List Nat} {pr : Nat × String}
    (h : pr ∈ labelPairs i P) : pr.1 ∈ P := by
  have := List.mem_map_of_mem Prod.fst h
  rwa [labelPairs_map_fst] at this

theorem dictMem_iff {α β : Type} [DecidableEq α] (d : List (α × β)) (k : α) :
    dictMem d k = true ↔ k ∈ d.map Prod.fst := by
  unfold dictMem
  rw [List.any_eq_true]
  constructor
  · rintro ⟨p, hp, hdec⟩
    rw [decide_eq_true_eq] at hdec
    exact hdec ▸ List.mem_map_of_mem Prod.fst hp
  · intro hk
    rcases List.mem_map.1 hk with ⟨p, hp, hpk⟩
    exact ⟨p, hp, by rw [decide_eq_true_eq]; exact hpk⟩

theorem dictMem_false {α β : Type} [DecidableEq α] {d : List (α × β)} {k : α}
    (h : k ∉ d.map Prod.fst) : dictMem d k = false := by
  cases hb : dictMem d k with
  | false => rfl
  | true => exact absurd ((dictMem_iff d k).1 hb) h

theorem dictMem_append {α β : Type} [DecidableEq α] (d₁ d₂ : List (α × β)) (k : α) :
    dictMem (d₁ ++ d₂) k = (dictMem d₁ k || dictMem d₂ k) := by
  simp [dictMem, List.any_append]

theorem dictInsert_of_not_mem {α β : Type} [DecidableEq α] (d : List (α × β))
    (k : α) (v : β) (h : dictMem d k = false) : dictInsert d k v = d ++ [(k, v)] := by
  unfold dictInsert
  unfold dictMem at h
  rw [h]
  simp

theorem assignBlockGo_eq_append :
    ∀ (P : List Nat) (d : List (Nat × String)) (i : Nat), P.Nodup →
      (∀ p ∈ P, dictMem d p = false) →
      assignBlockGo d i P = d ++ labelPairs i P := by
  intro P
  induction P with
  | nil => intro d i _ _; simp [assignBlockGo, labelPairs]
  | cons p rest ih =>
    intro d i hnd hmem
    have hp : dictMem d p = false := hmem p (by simp)
    have hpnotin : p ∉ rest := (List.nodup_cons.1 hnd).1
    rw [show assignBlockGo d i (p :: rest) =
          assignBlockGo (dictInsert d p (conditions.getD (i / 3) "")) (i + 1) rest
        from rfl]
    rw [dictInsert_of_not_mem d p _ hp]
    rw [ih _ (i + 1) (List.nodup_cons.1 hnd).2 ?side]
    · simp [labelPairs]
    case side =>
      intro q hq
      rw [dictMem_append]
      have h1 : dictMem d q = false := hmem q (List.mem_cons_of_mem p hq)
      have h2 : dictMem [(p, conditions.getD (i / 3) "")] q = false := by
        apply dictMem_false
        simp only [List.map_cons, List.map_nil, List.mem_singleton]
        intro hqp
        exact hpnotin (hqp ▸ hq)
      rw [h1, h2]
      rfl

theorem assignBlock_eq_append (d : List (Nat × String)) (e : List Nat) (t : Nat)
    (h : ∀ p ∈ blockPerm e t, dictMem d p = false) :
    assignBlock d (blockPerm e t) = d ++ labelPairs 0 (blockPerm e t) :=
  assignBlockGo_eq_append _ d 0 (blockPerm_nodup e t) h

theorem dictMem_labelPairs_block (e : List Nat) (t : Nat) (q : Nat)
    (h : ¬(t * 9 ≤ q ∧ q < t * 9 + 9)) :
    dictMem (labelPairs 0 (blockPerm e t)) q = false := by
  apply dictMem_false
  rw [labelPairs_map_fst]
  intro hq
  exact h (mem_blockPerm.1 hq)

theorem assignStep_pair (d : List (Nat × String)) (e' : List Nat) (t : Nat) :
    assignStep (d, e') t =
      (assignBlock d (pyShuffle (topicBlock t) e').1, (pyShuffle (topicBlock t) e').2) :=
  rfl

theorem assignTopics_eq (e : List Nat) :
    assignTopics e =
      labelPairs 0 (blockPerm e 0) ++ labelPairs 0 (blockPerm e 1) ++
        labelPairs 0 (blockPerm e 2) ++ labelPairs 0 (blockPerm e 3) ++
        labelPairs 0 (blockPerm e 4) := by
  have hb0 : assignBlock ([] : List (Nat × String)) (blockPerm e 0) =
      labelPairs 0 (blockPerm e 0) := by
    rw [assignBlock_eq_append [] e 0 (fun p _ => rfl)]
    exact List.nil_append _
  have hb1 : assignBlock (labelPairs 0 (blockPerm e 0)) (blockPerm e 1) =
      labelPairs 0 (blockPerm e 0) ++ labelPairs 0 (blockPerm e 1) := by
    apply assignBlock_eq_append
    intro p hp
    have hb := mem_blockPerm.1 hp
    exact dictMem_labelPairs_block e 0 p (by omega)
  have hb2 : assignBlock
      (labelPairs 0 (blockPerm e 0) ++ labelPairs 0 (blockPerm e 1)) (blockPerm e 2) =
      labelPairs 0 (blockPerm e 0) ++ labelPairs 0 (blockPerm e 1) ++
        labelPairs 0 (blockPerm e 2) := by
    apply assignBlock_eq_append
    intro p hp
    have hb := mem_blockPerm.1 hp
    rw [dictMem_append, dictMem_labelPairs_block e 0 p (by omega),
      dictMem_labelPairs_block e 1 p (by omega)]
    rfl
  have hb3 : assignBlock
      (labelPairs 0 (blockPerm e 0) ++ labelPairs 0 (blockPerm e 1) ++
        labelPairs 0 (blockPerm e 2)) (blockPerm e 3) =
      labelPairs 0 (blockPerm e 0) ++ labelPairs 0 (blockPerm e 1) ++
        labelPairs 0 (blockPerm e 2) ++ labelPairs 0 (blockPerm e 3) := by
    apply assignBlock_eq_append
    intro p hp
    have hb := mem_blockPerm.1 hp
    rw [dictMem_append, dictMem_append, dictMem_labelPairs_block e 0 p (by omega),
      dictMem_labelPairs_block e 1 p (by omega),
      dictMem_labelPairs_block e 2 p (by omega)]
    rfl
  have hb4 : assignBlock
      (labelPairs 0 (blockPerm e 0) ++ labelPairs 0 (blockPerm e 1) ++
        labelPairs 0 (blockPerm e 2) ++ labelPairs 0 (blockPerm e 3)) (blockPerm e 4) =
      labelPairs 0 (blockPerm e 0) ++ labelPairs 0 (blockPerm e 1) ++
        labelPairs 0 (blockPerm e 2) ++ labelPairs 0 (blockPerm e 3) ++
        labelPairs 0 (blockPerm e 4) := by
    apply assignBlock_eq_append
    intro p hp
    have hb := mem_blockPerm.1 hp
    rw [dictMem_append, dictMem_append, dictMem_append,
      dictMem_labelPairs_block e 0 p (by omega),
      dictMem_labelPairs_block e 1 p (by omega),
      dictMem_labelPairs_block e 2 p (by omega),
      dictMem_labelPairs_block e 3 p (by omega)]
    rfl
  have hB0 : (pyShuffle (topicBlock 0) e).1 = blockPerm e 0 := rfl
  have hE1 : (pyShuffle (topicBlock 0) e).2 = entropyAt e 1 := rfl
  have hB1 : (pyShuffle (topicBlock 1) (entropyAt e 1)).1 = blockPerm e 1 := rfl
  have hE2 : (pyShuffle (topicBlock 1) (entropyAt e 1)).2 = entropyAt e 2 := rfl
  have hB2 : (pyShuffle (topicBlock 2) (entropyAt e 2)).1 = blockPerm e 2 := rfl
  have hE3 : (pyShuffle (topicBlock 2) (entropyAt e 2)).2 = entropyAt e 3 := rfl
  have hB3 : (pyShuffle (topicBlock 3) (entropyAt e 3)).1 = blockPerm e 3 := rfl
  have hE4 : (pyShuffle (topicBlock 3) (entropyAt e 3)).2 = entropyAt e 4 := rfl
  have hB4 : (pyShuffle (topicBlock 4) (entropyAt e 4)).1 = blockPerm e 4 := rfl
  rw [assignTopics, show List.range 5 = [0, 1, 2, 3, 4] from rfl]
  rw [List.foldl_cons, assignStep_pair, hB0, hE1, hb0]
  rw [List.foldl_cons, assignStep_pair, hB1, hE2, hb1]
  rw [List.foldl_cons, assignStep_pair, hB2, hE3, hb2]
  rw [List.foldl_cons, assignStep_pair, hB3, hE4, hb3]
  rw [List.foldl_cons, assignStep_pair, hB4, hb4]
  rw [List.foldl_nil]

/-! ## Counting lemmas -/

theorem countP_labelPairs_fst (f : Nat → Bool) (i : Nat) (P : List Nat) :
    (labelPairs i P).countP (fun pr => f pr.1) = P.countP f := by
  induction P generalizing i with
  | nil => rfl
  | cons p rest ih => simp [labelPairs, List.countP_cons, ih]

theorem countP_labelPairs_snd (c : String) (P : List Nat) :
    ∀ i : Nat, (labelPairs i P).countP (fun pr => decide (pr.2 = c)) =
      (List.range' i P.length).countP (fun j => decide (conditions.getD (j / 3) "" = c)) := by
  induction P with
  | nil => intro i; rfl
  | cons p rest ih =>
    intro i
    rw [show (p :: rest).length = rest.length + 1 from rfl, List.range'_succ]
    simp only [labelPairs, List.countP_cons, ih (i + 1)]

theorem countP_range'_key (k : Nat) :
    ∀ (n s : Nat), (List.range' s n).countP (fun p => decide (p = k)) =
      if s ≤ k ∧ k < s + n then 1 else 0 := by
  intro n
  induction n with
  | zero =>
    intro s
    rw [List.range'_zero]
    rw [if_neg (by omega)]
    rfl
  | succ n ih =>
    intro s
    rw [List.range'_succ, List.countP_cons, ih (s + 1)]
    by_cases h : s = k <;> simp [h] <;> split_ifs <;> omega

theorem countP_blockPerm_key (e : List Nat) (t k : Nat) :
    (blockPerm e t).countP (fun p => decide (p = k)) =
      if t * 9 ≤ k ∧ k < t * 9 + 9 then 1 else 0 := by
  rw [(blockPerm_perm e t).countP_eq]
  simpa [topicBlock] using countP_range'_key k 9 (t * 9)

theorem countP_assignTopics (E : List Nat) (f : Nat × String → Bool) :
    (assignTopics E).countP f =
      (labelPairs 0 (blockPerm E 0)).countP f + (labelPairs 0 (blockPerm E 1)).countP f +
        (labelPairs 0 (blockPerm E 2)).countP f + (labelPairs 0 (blockPerm E 3)).countP f +
        (labelPairs 0 (blockPerm E 4)).countP f := by
  rw [assignTopics_eq, List.countP_append, List.countP_append, List.countP_append,
    List.countP_append]

/-- Number of mapping entries that lie in topic block `t` and carry
condition `c`. -/
def countBlockCondition (m : List (Nat × String)) (t : Nat) (c : String) : Nat :=
  m.countP (fun pr => decide (t * 9 ≤ pr.1) && decide (pr.1 < t * 9 + 9) && decide (pr.2 = c))

theorem countP_conditionLabels (c : String) (hc : c ∈ conditions) :
    (List.range' 0 9).countP (fun j => decide (conditions.getD (j / 3) "" = c)) = 3 := by
  have : c = "related" ∨ c = "unrelated" ∨ c = "no_feedback" := by
    simpa [conditions] using hc
  rcases this with rfl | rfl | rfl <;> decide

/-- C1: for the fixed valid configuration (45 stimuli, 5 topics, block
size 9) the mapping of `create_condition_assignment` has exactly 45
keys, covers every stimulus index in `[0, 45)` exactly once, assigns
each of the three conditions to exactly 3 indices inside every topic
block `[t*9, t*9+9)`, and hence to exactly 15 indices overall — for
every draw stream and every seed (in particular for seed 123, whose
block `[0, 9)` therefore has exactly 3 indices per condition). -/
theorem createConditionAssignment_balanced (ambient : List Nat) (seed : Option Int) :
    (createConditionAssignment 45 ambient seed).length = 45 ∧
    (∀ k : Nat, k < 45 →
      (createConditionAssignment 45 ambient seed).countP (fun pr => decide (pr.1 = k)) = 1) ∧
    (∀ t : Nat, t < 5 → ∀ c ∈ conditions,
      countBlockCondition (createConditionAssignment 45 ambient seed) t c = 3) ∧
    (∀ c ∈ conditions,
      (createConditionAssignment 45 ambient seed).countP (fun pr => decide (pr.2 = c)) = 15) := by
  have hca : createConditionAssignment 45 ambient seed =
      assignTopics (mappingEntropy ambient seed) := rfl
  set E := mappingEntropy ambient seed with hEdef
  refine ⟨?_, ?_, ?_, ?_⟩
  · rw [hca, assignTopics_eq]
    simp [length_labelPairs, length_blockPerm]
  · intro k hk
    have hkey : ∀ t : Nat,
        (labelPairs 0 (blockPerm E t)).countP (fun pr => decide (pr.1 = k)) =
          if t * 9 ≤ k ∧ k < t * 9 + 9 then 1 else 0 := by
      intro t
      exact (countP_labelPairs_fst (fun x => decide (x = k)) 0 (blockPerm E t)).trans
        (countP_blockPerm_key E t k)
    rw [hca, countP_assignTopics, hkey 0, hkey 1, hkey 2, hkey 3, hkey 4]
    split_ifs <;> omega
  · intro t ht c hc
    have hother : ∀ t' : Nat, t' ≠ t →
        (labelPairs 0 (blockPerm E t')).countP
          (fun pr => decide (t * 9 ≤ pr.1) && decide (pr.1 < t * 9 + 9) &&
            decide (pr.2 = c)) = 0 := by
      intro t' hne
      apply List.countP_eq_zero.2
      intro pr hpr
      have hm := mem_blockPerm.1 (fst_mem_of_mem_labelPairs hpr)
      simp only [Bool.and_eq_true, decide_eq_true_eq, not_and]
      rintro ⟨h1, h2⟩
      omega
    have hself :
        (labelPairs 0 (blockPerm E t)).countP
          (fun pr => decide (t * 9 ≤ pr.1) && decide (pr.1 < t * 9 + 9) &&
            decide (pr.2 = c)) = 3 := by
      have hcong : ∀ pr ∈ labelPairs 0 (blockPerm E t),
          ((decide (t * 9 ≤ pr.1) && decide (pr.1 < t * 9 + 9) && decide (pr.2 = c)) = true ↔
            decide (pr.2 = c) = true) := by
        intro pr hpr
        have hm := mem_blockPerm.1 (fst_mem_of_mem_labelPairs hpr)
        simp only [Bool.and_eq_true, decide_eq_true_eq]
        exact ⟨fun h => h.2, fun h => ⟨⟨hm.1, hm.2⟩, h⟩⟩
      rw [List.countP_congr hcong, countP_labelPairs_snd c (blockPerm E t) 0,
        length_blockPerm]
      exact countP_conditionLabels c hc
    have hterm : ∀ t' : Nat,
        (labelPairs 0 (blockPerm E t')).countP
          (fun pr => decide (t * 9 ≤ pr.1) && decide (pr.1 < t * 9 + 9) &&
            decide (pr.2 = c)) = if t' = t then 3 else 0 := by
      intro t'
      by_cases h : t' = t
      · subst h
        rw [if_pos rfl]
        exact hself
      · rw [if_neg h]
        exact hother t' h
    rw [hca]
    unfold countBlockCondition
    rw [countP_assignTopics, hterm 0, hterm 1, hterm 2, hterm 3, hterm 4]
    split_ifs <;> omega
  · intro c hc
    have hsnd : ∀ t : Nat,
        (labelPairs 0 (blockPerm E t)).countP (fun pr => decide (pr.2 = c)) = 3 := by
      intro t
      rw [countP_labelPairs_snd c (blockPerm E t) 0, length_blockPerm]
      exact countP_conditionLabels c hc
    rw [hca, countP_assignTopics, hsnd 0, hsnd 1, hsnd 2, hsnd 3, hsnd 4]

/-- Witness for C1 at the concrete configuration of end-to-end
scenario A: seed 123, topic block `[0, 9)`, condition `related`. -/
theorem createConditionAssignment_balanced_witness :
    (0 : Nat) < 5 ∧ "related" ∈ conditions ∧ (0 : Nat) < 45 ∧
      (createConditionAssignment 45 [] (some 123)).length = 45 ∧
      (createConditionAssignment 45 [] (some 123)).countP (fun pr => decide (pr.1 = 0)) = 1 ∧
      countBlockCondition (createConditionAssignment 45 [] (some 123)) 0 "related" = 3 :=
  ⟨by decide, by decide, by decide,
    (createConditionAssignment_balanced [] (some 123)).1,
    (createConditionAssignment_balanced [] (some 123)).2.1 0 (by decide),
    (createConditionAssignment_balanced [] (some 123)).2.2.1 0 (by decide) "related" (by decide)⟩

/-! ## Pointwise structure of the mapping (claim C2) -/

theorem find?_labelPairs_self (P : List Nat) :
    ∀ (i0 i : Nat), P.Nodup → ∀ hi : i < P.length,
      (labelPairs i0 P).find? (fun pr => decide (pr.1 = P.getD i 0)) =
        some (P.getD i 0, conditions.getD ((i0 + i) / 3) "") := by
  induction P with
  | nil => intro i0 i _ hi; simp at hi
  | cons p rest ih =>
    intro i0 i hnd hi
    cases i with
    | zero =>
      simp only [labelPairs, List.getD_cons_zero]
      rw [List.find?_cons_of_pos _ (by simp), Nat.add_zero]
    | succ i' =>
      have hi' : i' < rest.length := by simpa using hi
      have hmem : rest.getD i' 0 ∈ rest := by
        rw [List.getD_eq_getElem _ _ hi']
        exact List.getElem_mem hi'
      have hpne : p ≠ rest.getD i' 0 := fun h => (List.nodup_cons.1 hnd).1 (h ▸ hmem)
      simp only [labelPairs, List.getD_cons_succ]
      rw [List.find?_cons_of_neg _ (by simpa using hpne)]
      rw [ih (i0 + 1) i' (List.nodup_cons.1 hnd).2 hi']
      have harith : i0 + 1 + i' = i0 + (i' + 1) := by omega
      rw [harith]

theorem find?_labelPairs_none (P : List Nat) (i0 k : Nat) (h : k ∉ P) :
    (labelPairs i0 P).find? (fun pr => decide (pr.1 = k)) = none := by
  apply List.find?_eq_none.2
  intro pr hpr
  simp only [decide_eq_true_eq]
  intro hk
  exact h (hk ▸ fst_mem_of_mem_labelPairs hpr)

theorem option_some_or {α : Type} (a : α) (o : Option α) : (some a).or o = some a := rfl

theorem dictLookup_append_left_none {d₁ d₂ : List (Nat × String)} {k : Nat}
    (h : d₁.find? (fun pr => decide (pr.1 = k)) = none) :
    dictLookup (d₁ ++ d₂) k = dictLookup d₂ k := by
  simp only [dictLookup, List.find?_append, h, Option.none_or]

theorem dictLookup_append_left_some {d₁ d₂ : List (Nat × String)} {k : Nat}
    {v : Nat × String} (h : d₁.find? (fun pr => decide (pr.1 = k)) = some v) :
    dictLookup (d₁ ++ d₂) k = some v.2 := by
  simp only [dictLookup, List.find?_append, h, option_some_or, Option.map_some']

theorem dictLookup_of_find? {d : List (Nat × String)} {k : Nat} {v : Nat × String}
    (h : d.find? (fun pr => decide (pr.1 = k)) = some v) :
    dictLookup d k = some v.2 := by
  simp only [dictLookup, h, Option.map_some']

theorem assignTopics_eq_assoc (e : List Nat) :
    assignTopics e =
      labelPairs 0 (blockPerm e 0) ++ (labelPairs 0 (blockPerm e 1) ++
        (labelPairs 0 (blockPerm e 2) ++ (labelPairs 0 (blockPerm e 3) ++
          labelPairs 0 (blockPerm e 4)))) := by
  rw [assignTopics_eq, List.append_assoc, List.append_assoc, List.append_assoc]

theorem getD_blockPerm_bounds (E : List Nat) {t i : Nat} (hi : i < 9) :
    t * 9 ≤ (blockPerm E t).getD i 0 ∧ (blockPerm E t).getD i 0 < t * 9 + 9 := by
  have hi9 : i < (blockPerm E t).length := by rw [length_blockPerm]; omega
  apply mem_blockPerm.1
  rw [List.getD_eq_getElem _ _ hi9]
  exact List.getElem_mem hi9

theorem find?_blockPerm_none (E : List Nat) {t t' i : Nat} (hi : i < 9) (hne : t' ≠ t) :
    (labelPairs 0 (blockPerm E t')).find?
      (fun pr => decide (pr.1 = (blockPerm E t).getD i 0)) = none := by
  apply find?_labelPairs_none
  intro hmem
  have h1 := mem_blockPerm.1 hmem
  have h2 := getD_blockPerm_bounds E (t := t) hi
  omega

theorem find?_blockPerm_self (E : List Nat) {t i : Nat} (hi : i < 9) :
    (labelPairs 0 (blockPerm E t)).find?
      (fun pr => decide (pr.1 = (blockPerm E t).getD i 0)) =
      some ((blockPerm E t).getD i 0, conditions.getD (i / 3) "") := by
  have hi9 : i < (blockPerm E t).length := by rw [length_blockPerm]; omega
  have := find?_labelPairs_self (blockPerm E t) 0 i (blockPerm_nodup E t) hi9
  rwa [Nat.zero_add] at this

/-- C2: the assignment proceeds per topic block: block `t`'s shuffled
index list is a permutation of the contiguous block
`[t*9, t*9+9)`, and its `i`-th element is mapped to
`conditions[i // 3]` — the first three positions to `related`, the
next three to `unrelated`, the last three to `no_feedback`, in that
fixed order. -/
theorem createConditionAssignment_blockwise (ambient : List Nat) (seed : Option Int)
    (t i : Nat) (ht : t < 5) (hi : i < 9) :
    (blockPerm (mappingEntropy ambient seed) t).Perm (topicBlock t) ∧
    dictLookup (createConditionAssignment 45 ambient seed)
        ((blockPerm (mappingEntropy ambient seed) t).getD i 0) =
      some (conditions.getD (i / 3) "") := by
  set E := mappingEntropy ambient seed with hE
  refine ⟨blockPerm_perm E t, ?_⟩
  have hca : createConditionAssignment 45 ambient seed = assignTopics E := rfl
  rw [hca, assignTopics_eq_assoc]
  interval_cases t
  · rw [dictLookup_append_left_some (find?_blockPerm_self E hi)]
  · rw [dictLookup_append_left_none (find?_blockPerm_none E hi (by omega)),
      dictLookup_append_left_some (find?_blockPerm_self E hi)]
  · rw [dictLookup_append_left_none (find?_blockPerm_none E hi (by omega)),
      dictLookup_append_left_none (find?_blockPerm_none E hi (by omega)),
      dictLookup_append_left_some (find?_blockPerm_self E hi)]
  · rw [dictLookup_append_left_none (find?_blockPerm_none E hi (by omega)),
      dictLookup_append_left_none (find?_blockPerm_none E hi (by omega)),
      dictLookup_append_left_none (find?_blockPerm_none E hi (by omega)),
      dictLookup_append_left_some (find?_blockPerm_self E hi)]
  · rw [dictLookup_append_left_none (find?_blockPerm_none E hi (by omega)),
      dictLookup_append_left_none (find?_blockPerm_none E hi (by omega)),
      dictLookup_append_left_none (find?_blockPerm_none E hi (by omega)),
      dictLookup_append_left_none (find?_blockPerm_none E hi (by omega)),
      dictLookup_of_find? (find?_blockPerm_self E hi)]

/-- Witness for C2 at topic 0, position 0, seed 123. -/
theorem createConditionAssignment_blockwise_witness :
    (0 : Nat) < 5 ∧ (0 : Nat) < 9 ∧
      ((blockPerm (mappingEntropy [] (some 123)) 0).Perm (topicBlock 0) ∧
        dictLookup (createConditionAssignment 45 [] (some 123))
            ((blockPerm (mappingEntropy [] (some 123)) 0).getD 0 0) =
          some (conditions.getD (0 / 3) "")) :=
  ⟨by decide, by decide,
    createConditionAssignment_blockwise [] (some 123) 0 0 (by decide) (by decide)⟩

/-- C3: with the same explicit integer seed and the same inputs,
two calls of `create_condition_assignment` return an identical
mapping, whatever the ambient random state of either run is —
`random.seed` overwrites the process-wide generator. -/
theorem createConditionAssignment_seed_deterministic (total : Nat) (s : Int)
    (ambientFirstRun ambientSecondRun : List Nat) :
    createConditionAssignment total ambientFirstRun (some s) =
      createConditionAssignment total ambientSecondRun (some s) := rfl

/-! ## Question metrics (`get_common_words`, `get_content_words`,
`calculate_question_metrics`) -/

/-- The precomputed common-word set of `get_common_words` (app10.py
lines 321-331); the Python `set` is modelled as a duplicate-free list
(the literal's duplicate entries collapse, as in a Python set). -/
def get_common_words : List String :=
  ["이", "그", "저", "것", "수", "있", "없", "는", "을", "를", "가", "에", "의", "로", "으로",
   "와", "과", "어떤", "어떻게", "왜", "무엇", "언제", "어디서", "어떠한", "그런", "이런", "저런",
   "하는", "되는", "있는", "없는", "같은", "다른", "새로운", "기존", "현재", "미래", "과거",
   "대한", "위한", "통해", "따라", "관련", "문제", "방법", "방식", "경우", "상황", "조건",
   "결과", "영향", "효과", "중요", "필요", "가능", "연구", "분석", "탐구", "제안", "개발",
   "창조", "혁신", "아이디어", "해결", "답", "질문", "생각", "고려", "검토", "평가"]

/-- `get_content_words(text)`: strip `? . ,`, lower-case, split on
whitespace, deduplicate, and remove the common words. -/
def get_content_words (text : String) : List String :=
  ((pySplitWs (pyLower (removePunct text))).dedup).filter
    (fun w => !(get_common_words.contains w))

/-- Python `round(x, 3)` on the rational model of the score (CPython
rounds floats half-to-even; the difference is immaterial to every
verified property, which never constrains the rounded values). -/
def pyRound3 (q : ℚ) : ℚ := (round (q * 1000) : ℚ) / 1000

/-- The record produced by `calculate_question_metrics`. -/
structure QuestionMetrics where
  relatedness_score : ℚ
  paragraph_relevance : ℚ
  question_length : Nat
  question_word_count : Nat
  ends_with_question_mark : Bool
  is_empty : Bool
deriving DecidableEq, Repr

/-- `calculate_question_metrics(original_question, suggested_question, paragraph)`
(app10.py lines 611-654), with ratios computed in `ℚ`. -/
def calculate_question_metrics (original_question suggested_question paragraph : String) :
    QuestionMetrics :=
  let original_content := get_content_words original_question
  let suggested_content := get_content_words suggested_question
  let relatedness_score : ℚ :=
    if original_content.isEmpty then 0
    else
      let overlap := (original_content.filter (fun w => suggested_content.contains w)).length
      let overlap_ratio : ℚ := (overlap : ℚ) / (original_content.length : ℚ)
      let concept_overlap := (original_content.filter
        (fun w => decide (2 < w.length) && strContains (pyLower suggested_question) w)).length
      let concept_ratio : ℚ := (concept_overlap : ℚ) / (original_content.length : ℚ)
      max overlap_ratio concept_ratio
  let paragraph_content := get_content_words paragraph
  let question_content := get_content_words suggested_question
  let paragraph_relevance : ℚ :=
    if question_content.isEmpty then 0
    else ((paragraph_content.filter (fun w => question_content.contains w)).length : ℚ) /
      (question_content.length : ℚ)
  { relatedness_score := pyRound3 relatedness_score,
    paragraph_relevance := pyRound3 paragraph_relevance,
    question_length := suggested_question.length,
    question_word_count := (pySplitWs suggested_question).length,
    ends_with_question_mark := decide (suggested_question.data.getLast? = some '?'),
    is_empty := decide ((pyStrip suggested_question).length = 0) }

/-! ## Session state and the event logger -/

/-- One entry of the Event Log (`log_event` / `EventLogger.add_event`):
Python's `dict` entry with its timestamp, the session's iteration and
stage at logging time, the event description and its data payload
(rendered as key-value strings; an absent payload is the empty list). -/
structure LogEntry where
  timestamp : Nat
  iteration : Nat
  stage : String
  event : String
  data : List (String × String)
deriving DecidableEq, Repr

/-- The per-trial transient capture `st.session_state.current_iteration_data`;
an absent dict key is `none`. -/
structure IterData where
  novelty_rating : Option String := none
  paragraph_comments : Option String := none
  difficulty_rating : Option String := none
  difficulty_comments : Option String := none
  user_question : Option String := none
  question_comments : Option String := none
  question_input_interaction_time : Option Nat := none
  feedback : Option String := none
  suggested_question_metrics : Option QuestionMetrics := none
  curiosity : Option String := none
  relatedness : Option String := none
  accept_feedback : Option String := none
  feedback_comments : Option String := none
  survey_comments : Option String := none
  edited_question : Option String := none
  edit_comments : Option String := none
deriving DecidableEq, Repr

/-- One sealed Trial Record (`iteration_data` of
`submit_edited_question`, app10.py lines 1096-1127).  The spread
`**stage_durations` is kept as an association list. -/
structure IterationRecord where
  iteration : Nat
  paragraph : String
  paragraph_index : Nat
  original_paragraph_index : Nat
  feedback_type : String
  novelty_rating : Option String
  paragraph_comments : String
  difficulty_rating : Option String
  difficulty_comments : String
  original_question : String
  question_comments : String
  question_input_interaction_time_seconds : Option Nat
  feedback : String
  feedback_comments : String
  curiosity : Option String
  relatedness : Option String
  accept_feedback : Option String
  survey_comments : String
  edited_question : String
  edit_comments : String
  edit_textarea_interaction_time_seconds : Option Nat
  timestamp : Nat
  suggested_question_relatedness_score : Option ℚ
  suggested_question_paragraph_relevance : Option ℚ
  suggested_question_length : Option Nat
  suggested_question_word_count : Option Nat
  suggested_question_ends_with_question_mark : Option Bool
  suggested_question_is_empty : Option Bool
  stage_durations : List (String × Nat)
deriving DecidableEq, Repr, Inhabited

/-- The whole `st.session_state`: session bookkeeping, the event log
with the batching logger's pending buffer, the per-trial data, timers,
and the widget-backed fields.  Wall-clock reads tick `clock`, so a
later read always yields a larger timestamp.  A widget value of
`none` models an absent `st.session_state` key; `relatedness` uses
`Option (Option String)` because the survey page distinguishes an
absent key from an explicitly stored `None`. -/
structure SessionState where
  started : Bool := false
  iteration : Nat := 0
  stage : String := "start"
  clock : Nat := 0
  stage_timers : List (String × Nat) := []
  paragraphs : List String := []
  paragraph_mapping : List (Nat × Nat) := []
  condition_mapping : List (Nat × String) := []
  responses : List IterationRecord := []
  current_iteration_data : IterData := {}
  event_log : List LogEntry := []
  pending_events : List LogEntry := []
  user_question : Option String := none
  question_comments : Option String := none
  novelty_rating : Option String := none
  paragraph_comments : Option String := none
  difficulty_rating : Option String := none
  difficulty_comments : Option String := none
  curiosity : Option String := none
  relatedness : Option (Option String) := none
  accept_feedback : Option String := none
  feedback_comments : Option String := none
  survey_comments : Option String := none
  edited_question : Option String := none
  edit_comments : Option String := none
  question_input_focus_time : Option Nat := none
  edit_textarea_focus_time : Option Nat := none
deriving DecidableEq, Repr

/-- `log_event(event_description, data)` (app10.py lines 225-241):
appends one timestamped entry directly to the event log. -/
def log_event (st : SessionState) (desc : String) (data : List (String × String)) :
    SessionState :=
  let ts := st.clock
  let st' := { st with clock := st.clock + 1 }
  { st' with event_log := st'.event_log ++
      [{ timestamp := ts, iteration := st'.iteration, stage := st'.stage,
         event := desc, data := data }] }

/-- `EventLogger.add_event` (app10.py lines 739-759): append to the
pending batch; flush when the batch holds 5 entries or the description
contains `completed` or `error` (case-insensitively). -/
def logger_add_event (st : SessionState) (desc : String) (data : List (String × String)) :
    SessionState :=
  let ts := st.clock
  let st' := { st with clock := st.clock + 1 }
  let entry : LogEntry :=
    { timestamp := ts, iteration := st'.iteration, stage := st'.stage,
      event := desc, data := data }
  let pending := st'.pending_events ++ [entry]
  if 5 ≤ pending.length || strContains (pyLower desc) "completed" ||
      strContains (pyLower desc) "error" then
    { st' with event_log := st'.event_log ++ pending, pending_events := [] }
  else
    { st' with pending_events := pending }

/-- `EventLogger.flush` (app10.py lines 761-767). -/
def logger_flush (st : SessionState) : SessionState :=
  { st with event_log := st.event_log ++ st.pending_events, pending_events := [] }

/-- `log_event_batched` (app10.py lines 218-223); the logger is always
initialized, so this is `EventLogger.add_event`. -/
def log_event_batched (st : SessionState) (desc : String) (data : List (String × String)) :
    SessionState :=
  logger_add_event st desc data

/-- `send_marker` with the parallel port disabled: only the log entry
is produced. -/
def send_marker (st : SessionState) (marker_type : String) : SessionState :=
  log_event st ("MARKER: " ++ marker_type) []

/-- `start_stage_timer(stage_name)` (app10.py lines 832-833). -/
def start_stage_timer (st : SessionState) (stage_name : String) : SessionState :=
  let t := st.clock
  let st' := { st with clock := st.clock + 1 }
  { st' with stage_timers := dictInsert st'.stage_timers (stage_name ++ "_start") t }

/-- `end_stage_timer(stage_name)` (app10.py lines 836-844): when the
start timestamp exists, record and return the elapsed duration; a
timer that was never started yields `0` and changes nothing. -/
def end_stage_timer (st : SessionState) (stage_name : String) : SessionState × Nat :=
  match dictLookup st.stage_timers (stage_name ++ "_start") with
  | some t0 =>
    let t := st.clock
    let st' := { st with clock := st.clock + 1 }
    let dur := t - t0
    ({ st' with stage_timers := dictInsert st'.stage_timers (stage_name ++ "_duration") dur },
     dur)
  | none => (st, 0)

/-- `next_stage(next_stage_name)` (app10.py lines 847-860): end the
current stage's timer, log the transition (still under the old stage),
switch stage and start the next stage's timer. -/
def next_stage (st : SessionState) (next_stage_name : String) : SessionState :=
  let st1 := (end_stage_timer st st.stage).1
  let st2 := log_event st1 ("Stage transition: " ++ st1.stage ++ " -> " ++ next_stage_name) []
  let st3 := { st2 with stage := next_stage_name }
  start_stage_timer st3 next_stage_name

/-- `start_iteration()` (app10.py lines 863-871): at 45 completed
iterations the session becomes `completed`; otherwise the next trial
starts at `show_paragraph`. -/
def start_iteration (st : SessionState) : SessionState :=
  if 45 ≤ st.iteration then
    log_event { st with stage := "completed" } "Experiment completed" []
  else
    let st1 := { st with stage := "show_paragraph" }
    let st2 := start_stage_timer st1 "show_paragraph"
    let st3 := send_marker st2 "paragraph_start"
    log_event st3 "Iteration started" [("iteration_number", toString st3.iteration)]

/-- `paragraph_viewed()` (app10.py lines 874-877). -/
def paragraph_viewed (st : SessionState) : SessionState :=
  next_stage (send_marker (send_marker st "paragraph_end") "novelty_survey_start")
    "novelty_survey"

/-- `submit_novelty_survey()` (app10.py lines 880-913).  The second
component is the `st.error` message of a rejected submission. -/
def submit_novelty_survey (st : SessionState) : SessionState × Option String :=
  let st0 := send_marker st "novelty_survey_end"
  let novelty_rating := st0.novelty_rating
  let paragraph_comments := st0.paragraph_comments.getD ""
  let difficulty_rating := st0.difficulty_rating
  let difficulty_comments := st0.difficulty_comments.getD ""
  if novelty_rating = none then
    (st0, some "Please rate how novel the paragraph is before proceeding.")
  else if difficulty_rating = none then
    (st0, some "Please rate how difficult the paragraph is before proceeding.")
  else
    let st1 := { st0 with current_iteration_data := { st0.current_iteration_data with
      novelty_rating := novelty_rating, paragraph_comments := some paragraph_comments,
      difficulty_rating := difficulty_rating,
      difficulty_comments := some difficulty_comments } }
    let st2 := log_event_batched st1 "Novelty and difficulty survey submitted"
      [("novelty_rating", novelty_rating.getD ""), ("paragraph_comments", paragraph_comments),
       ("difficulty_rating", difficulty_rating.getD ""),
       ("difficulty_comments", difficulty_comments)]
    let st3 := send_marker st2 "question_input_start"
    (next_stage st3 "ask_question", none)

/-! ## Feedback generation (`get_ai_feedback`, `handle_api_error`) -/

/-- Outcome of the external LLM collaborator inside `get_ai_feedback`'s
`try` block: a successful classification-plus-generation, an exception
propagating to the `except` handler, or a missing API key. -/
inductive LLMResult where
  | ok (bloom_level suggested_question : String)
  | raise (error_message : String)
  | noKey
deriving DecidableEq, Repr

/-- The canned quota-fallback text for the `no_feedback` condition
(app10.py line 661). -/
def quotaFallbackNoFeedback : String :=
  "OpenAI API quota exceeded. Using mock response: '기억' 수준의 질문을 작성하셨군요.\n다음 단계로 넘어가면 질문을 수정할 기회가 주어집니다."

/-- The canned quota-fallback text for the `related` and `unrelated`
conditions (app10.py line 663). -/
def quotaFallbackSuggestion : String :=
  "OpenAI API quota exceeded. Using mock response: '기억' 수준의 질문을 작성하셨군요.\n'이 내용을 바탕으로 새로운 아이디어를 제안해보세요?'와 같은 질문으로 수정하는 것은 어떨까요?"

/-- `handle_api_error(error, feedback_type)` (app10.py lines 656-665). -/
def handle_api_error (error_msg feedback_type : String) : String :=
  if strContains error_msg "insufficient_quota" || strContains (pyLower error_msg) "quota" then
    if feedback_type = "no_feedback" then quotaFallbackNoFeedback else quotaFallbackSuggestion
  else
    "Error generating AI feedback: " ++ error_msg

/-- The `final_response` of `get_ai_feedback` for the `no_feedback`
condition (app10.py line 688). -/
def noFeedbackResponse (bloom_level : String) : String :=
  "'" ++ bloom_level ++ "' 수준의 질문을 작성하셨군요.\n다음 단계로 넘어가면 질문을 수정할 기회가 주어집니다. 더 창의적인 질문으로 수정하는 것은 어떨까요?"

/-- The `final_response` of `get_ai_feedback` when a suggestion is
generated (app10.py line 698). -/
def suggestionResponse (bloom_level suggested_question : String) : String :=
  "'" ++ bloom_level ++ "' 수준의 질문을 작성하셨군요.\n'" ++ suggested_question ++ "'와 같은 질문으로 수정하는 것은 어떨까요?"

/-- `get_ai_feedback(question, paragraph, original_paragraph_index)`
(app10.py lines 668-718): resolve the condition from the Condition
Mapping with default `no_feedback`; on an exception return the
`handle_api_error` text without touching the session; otherwise build
the response, store the suggestion metrics for non-`no_feedback`
conditions and log the generation. -/
def get_ai_feedback (st : SessionState) (llm : LLMResult)
    (question paragraph : String) (original_paragraph_index : Nat) :
    String × SessionState :=
  let feedback_type := dictGetD st.condition_mapping original_paragraph_index "no_feedback"
  match llm with
  | .raise error_msg => (handle_api_error error_msg feedback_type, st)
  | .noKey => ("Error: OpenAI API key not found.", st)
  | .ok bloom_level suggested =>
    if feedback_type = "no_feedback" then
      let st1 := log_event st "AI feedback generated"
        [("bloom_level", bloom_level), ("feedback_type", feedback_type),
         ("original_paragraph_index", toString original_paragraph_index)]
      (noFeedbackResponse bloom_level, st1)
    else
      let question_metrics := calculate_question_metrics question suggested paragraph
      let st1 := { st with current_iteration_data :=
        { st.current_iteration_data with suggested_question_metrics := some question_metrics } }
      let st2 := log_event st1 "AI feedback generated"
        [("bloom_level", bloom_level), ("suggested_question", suggested),
         ("feedback_type", feedback_type),
         ("original_paragraph_index", toString original_paragraph_index)]
      (suggestionResponse bloom_level suggested, st2)

/-! ## The submission handlers -/

/-- `submit_question()` (app10.py lines 935-996): validation first — an
empty or bare `?` question (after stripping) is rejected with no other
effect — then capture, markers, feedback generation and the transition
to `show_feedback`. -/
def submit_question (st : SessionState) (llm : LLMResult) : SessionState × Option String :=
  let question := st.user_question.getD ""
  let question_comments := st.question_comments.getD ""
  if pyStrip question = "" then (st, some "질문을 입력해주세요.")
  else if pyStrip question = "?" then (st, some "질문을 입력해주세요.")
  else
    let tFocusRead := st.clock
    let st0 := { st with clock := st.clock + 1 }
    let question_input_interaction_time :=
      st.question_input_focus_time.map (fun f => tFocusRead - f)
    let st1 := { st0 with current_iteration_data := { st0.current_iteration_data with
      user_question := some question, question_comments := some question_comments,
      question_input_interaction_time := question_input_interaction_time } }
    let st2 := send_marker st1 "question_input_end"
    let current_paragraph := st2.paragraphs.getD st2.iteration ""
    let original_paragraph_index := dictGetD st2.paragraph_mapping st2.iteration st2.iteration
    let st3 := log_event_batched st2 "Question submitted"
      [("question", question), ("question_comments", question_comments),
       ("paragraph_index", toString st2.iteration),
       ("original_paragraph_index", toString original_paragraph_index),
       ("paragraph", current_paragraph)]
    let st4 := send_marker st3 "feedback_start"
    let fbPair := get_ai_feedback st4 llm question current_paragraph original_paragraph_index
    let feedback := fbPair.1
    let st5 := send_marker fbPair.2 "feedback_end"
    let st6 := { st5 with current_iteration_data :=
      { st5.current_iteration_data with feedback := some feedback } }
    let feedback_type := dictGetD st6.condition_mapping original_paragraph_index "no_feedback"
    let st7 := log_event st6 "AI feedback generated"
      [("feedback", feedback), ("feedback_type", feedback_type),
       ("original_paragraph_index", toString original_paragraph_index)]
    (next_stage st7 "show_feedback", none)

/-- `submit_survey()` (app10.py lines 999-1049): curiosity and the
accept/reject choice are always required; the relatedness rating is
required exactly when the resolved condition is not `no_feedback`. -/
def submit_survey (st : SessionState) : SessionState × Option String :=
  let st0 := send_marker st "survey_end"
  let original_paragraph_index := dictGetD st0.paragraph_mapping st0.iteration st0.iteration
  let feedback_type := dictGetD st0.condition_mapping original_paragraph_index "no_feedback"
  let curiosity := st0.curiosity
  let relatedness := st0.relatedness.join
  let accept_feedback := st0.accept_feedback
  let feedback_comments := st0.feedback_comments.getD ""
  let survey_comments := st0.survey_comments.getD ""
  if curiosity = none then (st0, some "Please rate your curiosity level before proceeding.")
  else if accept_feedback = none then
    (st0, some "Please indicate whether you accept the feedback before proceeding.")
  else if feedback_type ≠ "no_feedback" ∧ relatedness = none then
    (st0, some "Please rate the relatedness before proceeding.")
  else
    let st1 := { st0 with current_iteration_data := { st0.current_iteration_data with
      curiosity := curiosity, relatedness := relatedness, accept_feedback := accept_feedback,
      feedback_comments := some feedback_comments, survey_comments := some survey_comments } }
    let st2 := log_event_batched st1 "Survey submitted"
      [("curiosity", curiosity.getD ""), ("relatedness", relatedness.getD ""),
       ("accept_feedback", accept_feedback.getD ""),
       ("feedback_comments", feedback_comments), ("survey_comments", survey_comments),
       ("paragraph_index", toString st1.iteration),
       ("original_paragraph_index", toString original_paragraph_index),
       ("feedback_type", feedback_type)]
    let st3 := send_marker st2 "edit_start"
    (next_stage st3 "edit_question", none)

/-- The relatedness-widget logic of the `survey` page of `main`
(app10.py lines 1504-1544): for a condition other than `no_feedback`
the widget's value is stored when selected; for `no_feedback` the
session field is explicitly set to `None` (`some none` here). -/
def surveyPageSetRelatedness (st : SessionState) (relatedness_input : Option String) :
    SessionState :=
  let original_paragraph_index := dictGetD st.paragraph_mapping st.iteration st.iteration
  let feedback_type := dictGetD st.condition_mapping original_paragraph_index "no_feedback"
  if feedback_type ≠ "no_feedback" then
    match relatedness_input with
    | some v => { st with relatedness := some (some v) }
    | none => st
  else
    { st with relatedness := some none }

/-- The fixed stage list of the duration loop in
`submit_edited_question` (app10.py line 1082). -/
def stageList : List String :=
  ["show_paragraph", "novelty_survey", "ask_question", "show_feedback", "survey",
   "edit_question"]

/-- The `stage_durations` dict of `submit_edited_question` (app10.py
lines 1081-1085): one `{stage}_time_seconds` entry per stage whose
`{stage}_duration` timer exists; the keys are pairwise distinct, so
the Python dict is built by appending. -/
def computeStageDurations (timers : List (String × Nat)) : List (String × Nat) :=
  stageList.foldl (fun acc stage =>
    match dictLookup timers (stage ++ "_duration") with
    | some d => acc ++ [(stage ++ "_time_seconds", d)]
    | none => acc) []

/-- `submit_edited_question()` (app10.py lines 1052-1158): validate the
revised question, seal the Trial Record with the computed per-stage
durations, append it to `responses`, reset every per-trial transient
field and timer, flush the batching logger, increment the trial index
and start the next iteration (or complete the session). -/
def submit_edited_question (st : SessionState) : SessionState × Option String :=
  let st0 := send_marker st "edit_end"
  let edited_question := st0.edited_question.getD ""
  let edit_comments := st0.edit_comments.getD ""
  if pyStrip edited_question = "" then
    (st0, some "Please enter a question before proceeding.")
  else
    let st1 := { st0 with current_iteration_data := { st0.current_iteration_data with
      edited_question := some edited_question, edit_comments := some edit_comments } }
    let st2 := log_event st1 "Edited question submitted"
      [("edited_question", edited_question), ("edit_comments", edit_comments)]
    let current_paragraph := st2.paragraphs.getD st2.iteration ""
    let original_paragraph_index := dictGetD st2.paragraph_mapping st2.iteration st2.iteration
    let st3 := (end_stage_timer st2 st2.stage).1
    let stage_durations := computeStageDurations st3.stage_timers
    let tFocusRead := st3.clock
    let st4 := { st3 with clock := st3.clock + 1 }
    let edit_textarea_interaction_time :=
      st3.edit_textarea_focus_time.map (fun f => tFocusRead - f)
    let metrics := st4.current_iteration_data.suggested_question_metrics
    let ts := st4.clock
    let st5 := { st4 with clock := st4.clock + 1 }
    let record : IterationRecord := {
      iteration := st5.iteration,
      paragraph := current_paragraph,
      paragraph_index := st5.iteration,
      original_paragraph_index := original_paragraph_index,
      feedback_type := dictGetD st5.condition_mapping original_paragraph_index "no_feedback",
      novelty_rating := st5.current_iteration_data.novelty_rating,
      paragraph_comments := st5.current_iteration_data.paragraph_comments.getD "",
      difficulty_rating := st5.current_iteration_data.difficulty_rating,
      difficulty_comments := st5.current_iteration_data.difficulty_comments.getD "",
      original_question := st5.current_iteration_data.user_question.getD "",
      question_comments := st5.current_iteration_data.question_comments.getD "",
      question_input_interaction_time_seconds :=
        st5.current_iteration_data.question_input_interaction_time,
      feedback := st5.current_iteration_data.feedback.getD "",
      feedback_comments := st5.current_iteration_data.feedback_comments.getD "",
      curiosity := st5.current_iteration_data.curiosity,
      relatedness := st5.current_iteration_data.relatedness,
      accept_feedback := st5.current_iteration_data.accept_feedback,
      survey_comments := st5.current_iteration_data.survey_comments.getD "",
      edited_question := edited_question,
      edit_comments := edit_comments,
      edit_textarea_interaction_time_seconds := edit_textarea_interaction_time,
      timestamp := ts,
      suggested_question_relatedness_score := metrics.map (·.relatedness_score),
      suggested_question_paragraph_relevance := metrics.map (·.paragraph_relevance),
      suggested_question_length := metrics.map (·.question_length),
      suggested_question_word_count := metrics.map (·.question_word_count),
      suggested_question_ends_with_question_mark :=
        metrics.map (·.ends_with_question_mark),
      suggested_question_is_empty := metrics.map (·.is_empty),
      stage_durations := stage_durations }
    let st6 := { st5 with responses := st5.responses ++ [record] }
    let st7 := { st6 with current_iteration_data := {}, stage_timers := [] }
    let st8 := { st7 with edit_textarea_focus_time := none, question_input_focus_time := none }
    let st9 := { st8 with
      user_question := none, edited_question := none, paragraph_comments := none,
      question_comments := none, feedback_comments := none, survey_comments := none,
      edit_comments := none, novelty_rating := none, difficulty_rating := none,
      difficulty_comments := none, curiosity := none, relatedness := none,
      accept_feedback := none }
    let st10 := logger_flush st9
    let st11 := { st10 with iteration := st10.iteration + 1 }
    (start_iteration st11, none)

/-- The original stimulus index of the current trial
(`st.session_state.paragraph_mapping.get(iteration, iteration)`). -/
def origIndexOf (st : SessionState) : Nat :=
  dictGetD st.paragraph_mapping st.iteration st.iteration

/-- The resolved condition of the current trial
(`st.session_state.condition_mapping.get(original_index, "no_feedback")`). -/
def conditionOf (st : SessionState) : String :=
  dictGetD st.condition_mapping (origIndexOf st) "no_feedback"

/-! ## Dictionary and string helper lemmas for the sequencer proofs -/

theorem option_map_or {α β : Type} (f : α → β) (o o' : Option α) :
    (o.or o').map f = (o.map f).or (o'.map f) := by
  cases o <;> rfl

theorem dictLookup_append {α β : Type} [DecidableEq α] (d₁ d₂ : List (α × β)) (k : α) :
    dictLookup (d₁ ++ d₂) k = (dictLookup d₁ k).or (dictLookup d₂ k) := by
  simp only [dictLookup, List.find?_append, option_map_or]

theorem string_append_right_cancel {a b suf : String} (h : a ++ suf = b ++ suf) : a = b := by
  apply String.ext
  have hd : (a ++ suf).data = (b ++ suf).data := congrArg String.data h
  rw [String.data_append, String.data_append] at hd
  exact List.append_cancel_right hd

theorem find?_map_overwrite {α β : Type} [DecidableEq α] (k k' : α) (v : β) (h : k ≠ k') :
    ∀ d : List (α × β),
      (d.map (fun p => if p.1 = k then (k, v) else p)).find?
          (fun p => decide (p.1 = k')) =
        d.find? (fun p => decide (p.1 = k')) := by
  intro d
  induction d with
  | nil => rfl
  | cons p rest ih =>
    by_cases hp : p.1 = k
    · have h1 : (if p.1 = k then (k, v) else p) = (k, v) := if_pos hp
      rw [List.map_cons, h1, List.find?_cons_of_neg _ (by simpa using h),
        List.find?_cons_of_neg _ (by simp [hp, h]), ih]
    · have h1 : (if p.1 = k then (k, v) else p) = p := if_neg hp
      rw [List.map_cons, h1]
      by_cases hk' : p.1 = k'
      · rw [List.find?_cons_of_pos _ (by simpa using hk'),
          List.find?_cons_of_pos _ (by simpa using hk')]
      · rw [List.find?_cons_of_neg _ (by simpa using hk'),
          List.find?_cons_of_neg _ (by simpa using hk'), ih]

theorem dictLookup_dictInsert_ne {α β : Type} [DecidableEq α] (d : List (α × β))
    (k k' : α) (v : β)
    (h : k ≠ k') : dictLookup (dictInsert d k v) k' = dictLookup d k' := by
  unfold dictInsert
  split
  · simp only [dictLookup, find?_map_overwrite k k' v h]
  · rw [dictLookup_append]
    have hnone : dictLookup [(k, v)] k' = none := by
      simp [dictLookup, List.find?_cons_of_neg, h]
    rw [hnone, Option.or_none]


theorem lookup_foldl_dur_skip (timers : List (String × Nat)) (s : String) :
    ∀ (l : List String) (acc : List (String × Nat)), (∀ a ∈ l, a ≠ s) →
      dictLookup (l.foldl (fun acc stage =>
          match dictLookup timers (stage ++ "_duration") with
          | some d => acc ++ [(stage ++ "_time_seconds", d)]
          | none => acc) acc) (s ++ "_time_seconds") =
        dictLookup acc (s ++ "_time_seconds") := by
  intro l
  induction l with
  | nil => intro acc _; rfl
  | cons a l' ih =>
    intro acc hne
    rw [List.foldl_cons]
    have hane : a ≠ s := hne a (by simp)
    have hkey : a ++ "_time_seconds" ≠ s ++ "_time_seconds" :=
      fun hcontra => hane (string_append_right_cancel hcontra)
    cases hd : dictLookup timers (a ++ "_duration") with
    | none =>
      simp only [hd]
      exact ih acc (fun b hb => hne b (List.mem_cons_of_mem a hb))
    | some d =>
      simp only [hd]
      rw [ih (acc ++ [(a ++ "_time_seconds", d)]) (fun b hb => hne b (List.mem_cons_of_mem a hb))]
      rw [dictLookup_append]
      have hnone : dictLookup [(a ++ "_time_seconds", d)] (s ++ "_time_seconds") = none := by
        simp [dictLookup, List.find?_cons_of_neg, hkey]
      rw [hnone, Option.or_none]

theorem lookup_foldl_dur (timers : List (String × Nat)) (s : String) :
    ∀ (l : List String) (acc : List (String × Nat)), s ∈ l → l.Nodup →
      dictLookup acc (s ++ "_time_seconds") = none →
      dictLookup (l.foldl (fun acc stage =>
          match dictLookup timers (stage ++ "_duration") with
          | some d => acc ++ [(stage ++ "_time_seconds", d)]
          | none => acc) acc) (s ++ "_time_seconds") =
        dictLookup timers (s ++ "_duration") := by
  intro l
  induction l with
  | nil => intro acc hs _ _; simp at hs
  | cons a l' ih =>
    intro acc hs hnd hacc
    rw [List.foldl_cons]
    by_cases has : a = s
    · subst has
      have hnotin : ∀ b ∈ l', b ≠ a := by
        intro b hb hba
        exact (List.nodup_cons.1 hnd).1 (hba ▸ hb)
      cases hd : dictLookup timers (a ++ "_duration") with
      | none =>
        simp only [hd]
        rw [lookup_foldl_dur_skip timers a l' acc hnotin, hacc]
      | some d =>
        simp only [hd]
        have hsing : dictLookup [(a ++ "_time_seconds", d)] (a ++ "_time_seconds") =
            some d := by
          unfold dictLookup
          rw [List.find?_cons_of_pos _ (by simp)]
          rfl
        rw [lookup_foldl_dur_skip timers a l' _ hnotin, dictLookup_append, hacc, hsing,
          Option.none_or]
    · have hs' : s ∈ l' := by
        rcases List.mem_cons.1 hs with h | h
        · exact absurd h.symm has
        · exact h
      have hkey : a ++ "_time_seconds" ≠ s ++ "_time_seconds" :=
        fun hcontra => has (string_append_right_cancel hcontra)
      cases hd : dictLookup timers (a ++ "_duration") with
      | none =>
        simp only [hd]
        exact ih acc hs' (List.nodup_cons.1 hnd).2 hacc
      | some d =>
        simp only [hd]
        apply ih _ hs' (List.nodup_cons.1 hnd).2
        rw [dictLookup_append, hacc]
        have hnone : dictLookup [(a ++ "_time_seconds", d)] (s ++ "_time_seconds") = none := by
          simp [dictLookup, List.find?_cons_of_neg, hkey]
        rw [hnone]
        rfl

theorem lookup_computeStageDurations (timers : List (String × Nat)) (s : String)
    (hs : s ∈ stageList) :
    dictLookup (computeStageDurations timers) (s ++ "_time_seconds") =
      dictLookup timers (s ++ "_duration") := by
  unfold computeStageDurations
  exact lookup_foldl_dur timers s stageList [] hs (by decide) rfl

/-! ## Claim C4: trivial questions are rejected without any effect -/

/-- C4: at the `ask_question` stage a submitted question that strips
to the empty string or to a bare `?` is rejected: `submit_question`
returns the validation error and the session state — stage,
in-progress Trial Record data, event log, everything — unchanged. -/
theorem submit_question_rejects_trivial (st : SessionState) (llm : LLMResult)
    (h : pyStrip (st.user_question.getD "") = "" ∨
      pyStrip (st.user_question.getD "") = "?") :
    submit_question st llm = (st, some "질문을 입력해주세요.") := by
  unfold submit_question
  rcases h with h | h
  · rw [if_pos h]
  · by_cases h0 : pyStrip (st.user_question.getD "") = ""
    · rw [if_pos h0]
    · rw [if_neg h0, if_pos h]

/-- A concrete session at the `ask_question` stage whose question
widget holds a bare question mark surrounded by whitespace. -/
def questionMarkState : SessionState :=
  { stage := "ask_question", user_question := some " ? ",
    current_iteration_data := { novelty_rating := some "4" } }

/-- Witness for C4: scenario B's input `"?"` (with whitespace) is
rejected and the state is returned untouched. -/
theorem submit_question_rejects_trivial_witness :
    (pyStrip (questionMarkState.user_question.getD "") = "" ∨
      pyStrip (questionMarkState.user_question.getD "") = "?") ∧
    submit_question questionMarkState LLMResult.noKey =
      (questionMarkState, some "질문을 입력해주세요.") :=
  ⟨Or.inr (by decide),
    submit_question_rejects_trivial questionMarkState LLMResult.noKey (Or.inr (by decide))⟩

/-! ## Claim C5: relatedness is optional exactly for `no_feedback` -/

/-- C5: with curiosity and the accept/reject choice present, a survey
submission whose relatedness value is null passes validation if and
only if the trial's resolved condition is `no_feedback`; moreover the
survey page forces `relatedness` to an explicit null (rather than
leaving it unset) whenever the condition is `no_feedback`. -/
theorem submit_survey_relatedness_iff (st : SessionState)
    (relatedness_input : Option String)
    (hcur : st.curiosity ≠ none) (hacc : st.accept_feedback ≠ none)
    (hrel : st.relatedness.join = none) :
    ((submit_survey st).2 = none ↔ conditionOf st = "no_feedback") ∧
      (conditionOf st = "no_feedback" →
        (surveyPageSetRelatedness st relatedness_input).relatedness = some none) := by
  constructor
  · unfold submit_survey send_marker log_event
    dsimp only
    rw [if_neg hcur, if_neg hacc, hrel]
    by_cases hft : dictGetD st.condition_mapping
        (dictGetD st.paragraph_mapping st.iteration st.iteration) "no_feedback" =
        "no_feedback"
    · rw [if_neg (fun hcontra => hcontra.1 hft)]
      unfold conditionOf origIndexOf
      simp [hft]
    · rw [if_pos ⟨hft, rfl⟩]
      unfold conditionOf origIndexOf
      simp [hft]
  · intro hft
    unfold conditionOf origIndexOf at hft
    unfold surveyPageSetRelatedness
    dsimp only
    rw [if_neg (fun hne => hne hft)]

/-- A concrete session whose current trial resolves to `no_feedback`
(original index 3 is mapped to it) with curiosity and accept present
and relatedness null. -/
def noFeedbackSurveyState : SessionState :=
  { stage := "survey", iteration := 0,
    paragraph_mapping := [(0, 3)], condition_mapping := [(3, "no_feedback")],
    curiosity := some "5", accept_feedback := some "예", relatedness := some none }

/-- Witness for C5 at a concrete `no_feedback` trial. -/
theorem submit_survey_relatedness_iff_witness :
    (noFeedbackSurveyState.curiosity ≠ none ∧
      noFeedbackSurveyState.accept_feedback ≠ none ∧
      noFeedbackSurveyState.relatedness.join = none) ∧
    (((submit_survey noFeedbackSurveyState).2 = none ↔
        conditionOf noFeedbackSurveyState = "no_feedback") ∧
      (conditionOf noFeedbackSurveyState = "no_feedback" →
        (surveyPageSetRelatedness noFeedbackSurveyState none).relatedness = some none)) :=
  ⟨⟨by decide, by decide, by decide⟩,
    submit_survey_relatedness_iff noFeedbackSurveyState none (by decide) (by decide)
      (by decide)⟩

/-! ## Claim C9: timers that were never started -/

/-- Amended C9: querying a never-started stage timer at seal time via
`end_stage_timer` yields a zero duration and no error (and leaves the
state untouched); but the sealed record *omits* that stage's duration
column entirely — `stage_durations` contains no `{stage}_time_seconds`
entry — rather than recording zero. -/
theorem never_started_timer_zero (st : SessionState) (s : String) (hs : s ∈ stageList)
    (hstart : dictLookup st.stage_timers (s ++ "_start") = none)
    (hdur : dictLookup st.stage_timers (s ++ "_duration") = none) :
    end_stage_timer st s = (st, 0) ∧
      dictLookup (computeStageDurations st.stage_timers) (s ++ "_time_seconds") = none := by
  constructor
  · unfold end_stage_timer
    rw [hstart]
  · rw [lookup_computeStageDurations _ _ hs, hdur]

/-- A concrete session at the `edit_question` stage in which no stage
timer was ever started. -/
def timerlessEditState : SessionState :=
  { stage := "edit_question", iteration := 0, edited_question := some "수정된 질문?",
    stage_timers := [] }

/-- Counterexample to C9 as stated: for the `survey` timer, which was
never started, `end_stage_timer` does yield a zero duration, but the
sealed Trial Record does *not* record zero for the stage's duration
field — the `survey_time_seconds` column is absent from the sealed
record (`dictLookup` is `none`, not `some 0`). -/
theorem sealed_record_omits_duration_cex :
    dictLookup timerlessEditState.stage_timers "survey_start" = none ∧
    end_stage_timer timerlessEditState "survey" = (timerlessEditState, 0) ∧
    (submit_edited_question timerlessEditState).2 = none ∧
    dictLookup
        (((submit_edited_question timerlessEditState).1.responses.headD
          default).stage_durations) "survey_time_seconds" = none ∧
    dictLookup
        (((submit_edited_question timerlessEditState).1.responses.headD
          default).stage_durations) "survey_time_seconds" ≠ some 0 := by
  refine ⟨rfl, rfl, rfl, rfl, ?_⟩
  decide

/-- Witness for the amended C9 at the concrete timerless session. -/
theorem never_started_timer_zero_witness :
    ("survey" ∈ stageList ∧
      dictLookup timerlessEditState.stage_timers ("survey" ++ "_start") = none ∧
      dictLookup timerlessEditState.stage_timers ("survey" ++ "_duration") = none) ∧
    (end_stage_timer timerlessEditState "survey" = (timerlessEditState, 0) ∧
      dictLookup (computeStageDurations timerlessEditState.stage_timers)
        ("survey" ++ "_time_seconds") = none) :=
  ⟨⟨by decide, by decide, by decide⟩,
    never_started_timer_zero timerlessEditState "survey" (by decide) (by decide) (by decide)⟩

/-! ## Claim C6: sealing and advancing -/

/-- C6: a valid `edit_question` advance (revised question non-empty
after stripping) is accepted; it appends exactly one sealed Trial
Record carrying the trial's index, the revised question, the stored
feedback and the per-stage durations computed from the recorded
timers; it resets the per-trial transient data and all widget fields,
increments the trial index, and transitions to `completed` when the
new index reaches 45 (never re-entering `show_paragraph`), otherwise
restarts at `show_paragraph`. -/
theorem submit_edited_question_seals_and_advances (st : SessionState)
    (hq : ¬ pyStrip (st.edited_question.getD "") = "") :
    (submit_edited_question st).2 = none ∧
    (∃ r : IterationRecord,
      (submit_edited_question st).1.responses = st.responses ++ [r] ∧
      r.iteration = st.iteration ∧
      r.edited_question = st.edited_question.getD "" ∧
      r.feedback = st.current_iteration_data.feedback.getD "" ∧
      (∀ s ∈ stageList, s ≠ st.stage →
        dictLookup r.stage_durations (s ++ "_time_seconds") =
          dictLookup st.stage_timers (s ++ "_duration"))) ∧
    (submit_edited_question st).1.current_iteration_data = {} ∧
    (submit_edited_question st).1.user_question = none ∧
    (submit_edited_question st).1.edited_question = none ∧
    (submit_edited_question st).1.curiosity = none ∧
    (submit_edited_question st).1.relatedness = none ∧
    (submit_edited_question st).1.accept_feedback = none ∧
    (submit_edited_question st).1.novelty_rating = none ∧
    (submit_edited_question st).1.difficulty_rating = none ∧
    (submit_edited_question st).1.iteration = st.iteration + 1 ∧
    (st.iteration + 1 = 45 → (submit_edited_question st).1.stage = "completed" ∧
      (submit_edited_question st).1.stage_timers = []) ∧
    (st.iteration + 1 < 45 → (submit_edited_question st).1.stage = "show_paragraph" ∧
      ∃ c : Nat, (submit_edited_question st).1.stage_timers = [("show_paragraph_start", c)]) := by
  unfold submit_edited_question send_marker log_event logger_flush start_iteration
    start_stage_timer end_stage_timer
  dsimp only
  rw [if_neg hq]
  cases hlook : dictLookup st.stage_timers (st.stage ++ "_start") with
  | none =>
    simp only [hlook]
    by_cases h45 : 45 ≤ st.iteration + 1
    · rw [if_pos h45]
      refine ⟨trivial, ⟨_, rfl, rfl, rfl, rfl, ?_⟩, rfl, rfl, rfl, rfl, rfl, rfl, rfl, rfl, rfl,
        fun _ => ⟨rfl, rfl⟩, fun hlt => absurd hlt (by omega)⟩
      intro s hs _
      rw [lookup_computeStageDurations _ _ hs]
    · rw [if_neg h45]
      refine ⟨trivial, ⟨_, rfl, rfl, rfl, rfl, ?_⟩, rfl, rfl, rfl, rfl, rfl, rfl, rfl, rfl, rfl,
        fun heq => absurd heq (by omega), fun _ => ⟨rfl, ⟨_, rfl⟩⟩⟩
      intro s hs _
      rw [lookup_computeStageDurations _ _ hs]
  | some t0 =>
    simp only [hlook]
    by_cases h45 : 45 ≤ st.iteration + 1
    · rw [if_pos h45]
      refine ⟨trivial, ⟨_, rfl, rfl, rfl, rfl, ?_⟩, rfl, rfl, rfl, rfl, rfl, rfl, rfl, rfl, rfl,
        fun _ => ⟨rfl, rfl⟩, fun hlt => absurd hlt (by omega)⟩
      intro s hs hne
      rw [lookup_computeStageDurations _ _ hs,
        dictLookup_dictInsert_ne _ _ _ _
          (fun hcontra => hne (string_append_right_cancel hcontra).symm)]
    · rw [if_neg h45]
      refine ⟨trivial, ⟨_, rfl, rfl, rfl, rfl, ?_⟩, rfl, rfl, rfl, rfl, rfl, rfl, rfl, rfl, rfl,
        fun heq => absurd heq (by omega), fun _ => ⟨rfl, ⟨_, rfl⟩⟩⟩
      intro s hs hne
      rw [lookup_computeStageDurations _ _ hs,
        dictLookup_dictInsert_ne _ _ _ _
          (fun hcontra => hne (string_append_right_cancel hcontra).symm)]

/-- A concrete session at the `edit_question` stage of trial 44 (the
last trial), with a revised question entered. -/
def editStageState : SessionState :=
  { stage := "edit_question", iteration := 44,
    edited_question := some "더 창의적인 질문?",
    stage_timers := [("edit_question_start", 10)],
    current_iteration_data := { feedback := some "피드백 텍스트" } }

/-- Witness for C6 at trial 44: the advance is accepted, one record is
appended, the transient data is reset, the index becomes 45 and the
session completes (scenario D). -/
theorem submit_edited_question_seals_and_advances_witness :
    (¬ pyStrip (editStageState.edited_question.getD "") = "") ∧
    ((submit_edited_question editStageState).2 = none ∧
      (submit_edited_question editStageState).1.iteration = 45 ∧
      (submit_edited_question editStageState).1.stage = "completed" ∧
      (submit_edited_question editStageState).1.current_iteration_data = {} ∧
      (submit_edited_question editStageState).1.responses.length = 1) := by
  have h := submit_edited_question_seals_and_advances editStageState (by decide)
  obtain ⟨h1, h2, h3, _, _, _, _, _, _, _, h11, h12, _⟩ := h
  obtain ⟨r, hr, -, -, -, -⟩ := h2
  refine ⟨by decide, h1, h11, (h12 rfl).1, h3, ?_⟩
  rw [hr]
  rfl

/-! ## Claim C10: missing mapping entries silently mean `no_feedback` -/

/-- C10: condition resolution never fails — every lookup uses the
original stimulus index with default `no_feedback`, so when that index
is absent from the Condition Mapping, feedback generation takes the
`no_feedback` path, survey validation exempts the relatedness rating,
and the sealed record's `feedback_type` is `no_feedback`, with no
error anywhere. -/
theorem condition_default_no_feedback (st : SessionState) (bloom suggested q p : String)
    (hmiss : dictLookup st.condition_mapping (origIndexOf st) = none) :
    conditionOf st = "no_feedback" ∧
    (get_ai_feedback st (LLMResult.ok bloom suggested) q p (origIndexOf st)).1 =
      noFeedbackResponse bloom ∧
    (st.curiosity ≠ none → st.accept_feedback ≠ none → (submit_survey st).2 = none) ∧
    (¬ pyStrip (st.edited_question.getD "") = "" →
      ∃ r : IterationRecord,
        (submit_edited_question st).1.responses = st.responses ++ [r] ∧
          r.feedback_type = "no_feedback") := by
  have hft : dictGetD st.condition_mapping (origIndexOf st) "no_feedback" =
      "no_feedback" := by
    unfold dictGetD
    rw [hmiss]
    rfl
  refine ⟨hft, ?_, ?_, ?_⟩
  · unfold get_ai_feedback
    dsimp only
    rw [hft, if_pos rfl]
  · intro hcur hacc
    unfold submit_survey send_marker log_event
    dsimp only
    rw [if_neg hcur, if_neg hacc, if_neg (fun hcontra => hcontra.1 hft)]
  · intro hq
    unfold submit_edited_question send_marker log_event logger_flush start_iteration
      start_stage_timer end_stage_timer
    dsimp only
    rw [if_neg hq]
    cases hlook : dictLookup st.stage_timers (st.stage ++ "_start") with
    | none =>
      simp only [hlook]
      by_cases h45 : 45 ≤ st.iteration + 1
      · rw [if_pos h45]
        exact ⟨_, rfl, hft⟩
      · rw [if_neg h45]
        exact ⟨_, rfl, hft⟩
    | some t0 =>
      simp only [hlook]
      by_cases h45 : 45 ≤ st.iteration + 1
      · rw [if_pos h45]
        exact ⟨_, rfl, hft⟩
      · rw [if_neg h45]
        exact ⟨_, rfl, hft⟩

/-- A concrete session whose current trial's original index (2) is
absent from the Condition Mapping. -/
def missingConditionState : SessionState :=
  { stage := "survey", iteration := 2, paragraph_mapping := [],
    condition_mapping := [(0, "related")], curiosity := some "3",
    accept_feedback := some "아니오", edited_question := some "질문?" }

/-- Witness for C10 at a concrete session with a missing mapping entry. -/
theorem condition_default_no_feedback_witness :
    dictLookup missingConditionState.condition_mapping (origIndexOf missingConditionState) =
      none ∧
    conditionOf missingConditionState = "no_feedback" ∧
    (get_ai_feedback missingConditionState (LLMResult.ok "기억" "제안 질문?") "질문?" "문단"
        (origIndexOf missingConditionState)).1 = noFeedbackResponse "기억" ∧
    (submit_survey missingConditionState).2 = none ∧
    (∃ r : IterationRecord,
      (submit_edited_question missingConditionState).1.responses =
        missingConditionState.responses ++ [r] ∧ r.feedback_type = "no_feedback") := by
  have h := condition_default_no_feedback missingConditionState "기억" "제안 질문?" "질문?"
    "문단" (by decide)
  obtain ⟨hcond, hfb, hsurv, hseal⟩ := h
  obtain ⟨r, hr, hrft⟩ := hseal (by decide)
  exact ⟨by decide, hcond, hfb, hsurv (by decide) (by decide), ⟨r, hr, hrft⟩⟩

/-! ## Claim C7: quota errors fall back to the canned feedback -/

set_option maxHeartbeats 2000000 in
/-- Successful `submit_question` run whose feedback generation raises:
the returned state stores `handle_api_error`'s text as the feedback,
logs it under `AI feedback generated`, moves to `show_feedback`, and
leaves the survey widgets, mappings and responses untouched.  Stated
for a session whose timer table and batch buffer start empty. -/
theorem submit_question_raise_spec (st : SessionState) (errMsg : String)
    (hq1 : ¬ pyStrip (st.user_question.getD "") = "")
    (hq2 : ¬ pyStrip (st.user_question.getD "") = "?")
    (htimers : st.stage_timers = [])
    (hpend : st.pending_events = []) :
    ∃ st1 : SessionState, submit_question st (LLMResult.raise errMsg) = (st1, none) ∧
      st1.current_iteration_data.feedback =
        some (handle_api_error errMsg (dictGetD st.condition_mapping
          (dictGetD st.paragraph_mapping st.iteration st.iteration) "no_feedback")) ∧
      st1.curiosity = st.curiosity ∧
      st1.accept_feedback = st.accept_feedback ∧
      st1.relatedness = st.relatedness ∧
      st1.edited_question = st.edited_question ∧
      st1.iteration = st.iteration ∧
      st1.paragraph_mapping = st.paragraph_mapping ∧
      st1.condition_mapping = st.condition_mapping ∧
      st1.responses = st.responses ∧
      st1.stage = "show_feedback" ∧
      (∃ c : Nat, st1.stage_timers = [("show_feedback_start", c)]) ∧
      (∃ e0 : LogEntry, st1.pending_events = [e0]) ∧
      (∃ en ∈ st1.event_log, en.event = "AI feedback generated" ∧
        ("feedback", handle_api_error errMsg (dictGetD st.condition_mapping
          (dictGetD st.paragraph_mapping st.iteration st.iteration) "no_feedback")) ∈ en.data) := by
  unfold submit_question get_ai_feedback next_stage end_stage_timer start_stage_timer
    send_marker log_event_batched logger_add_event log_event
  dsimp only
  rw [if_neg hq1, if_neg hq2, htimers, hpend]
  split_ifs with hflush
  · have hc : strContains (pyLower "Question submitted") "completed" = false := by decide
    have he : strContains (pyLower "Question submitted") "error" = false := by decide
    simp [hc, he] at hflush
  · simp only [dictLookup, List.find?_nil, Option.map_none']
    exact ⟨_, rfl, rfl, rfl, rfl, rfl, rfl, rfl, rfl, rfl, rfl, rfl, ⟨_, rfl⟩, ⟨_, rfl⟩,
      ⟨_, List.mem_append_left _ (List.mem_append_right _ (List.mem_cons_self _ _)), rfl,
        List.mem_cons_self _ _⟩⟩

set_option maxHeartbeats 2000000 in
/-- Successful `submit_survey` run at the `show_feedback` stage:
validation passes, the trial data (in particular the stored feedback)
is preserved, the stage becomes `edit_question` and the event log only
grows. -/
theorem submit_survey_ok_spec (st : SessionState)
    (hcur : st.curiosity ≠ none) (hacc : st.accept_feedback ≠ none)
    (hval : ¬(dictGetD st.condition_mapping
      (dictGetD st.paragraph_mapping st.iteration st.iteration) "no_feedback" ≠
        "no_feedback" ∧ st.relatedness.join = none))
    (hstage : st.stage = "show_feedback")
    (htimers : ∃ c : Nat, st.stage_timers = [("show_feedback_start", c)])
    (hpend : ∃ e0 : LogEntry, st.pending_events = [e0]) :
    ∃ st2 : SessionState, submit_survey st = (st2, none) ∧
      st2.current_iteration_data.feedback = st.current_iteration_data.feedback ∧
      st2.edited_question = st.edited_question ∧
      st2.iteration = st.iteration ∧
      st2.paragraph_mapping = st.paragraph_mapping ∧
      st2.condition_mapping = st.condition_mapping ∧
      st2.responses = st.responses ∧
      st2.stage = "edit_question" ∧
      (∃ c d e : Nat, st2.stage_timers =
        [("show_feedback_start", c), ("show_feedback_duration", d),
          ("edit_question_start", e)]) ∧
      (∀ en : LogEntry, en ∈ st.event_log → en ∈ st2.event_log) := by
  obtain ⟨c0, htimers⟩ := htimers
  obtain ⟨e0, hpend⟩ := hpend
  unfold submit_survey next_stage end_stage_timer start_stage_timer send_marker
    log_event_batched logger_add_event log_event
  dsimp only
  rw [hstage, htimers, hpend, if_neg hcur, if_neg hacc, if_neg hval]
  split_ifs with hflush
  · have hc : strContains (pyLower "Survey submitted") "completed" = false := by decide
    have he : strContains (pyLower "Survey submitted") "error" = false := by decide
    simp [hc, he] at hflush
  · have hlk : dictLookup [("show_feedback_start", c0)] "show_feedback_start" = some c0 := by
      unfold dictLookup
      rw [List.find?_cons_of_pos _ (by simp)]
      rfl
    cases hT : dictLookup [("show_feedback_start", c0)] "show_feedback_start" with
    | none => exact Option.noConfusion (hlk.symm.trans hT)
    | some t0 =>
      refine ⟨_, rfl, rfl, rfl, rfl, rfl, rfl, rfl, rfl, ⟨_, _, _, rfl⟩, ?_⟩
      intro en hen
      exact List.mem_append_left _ (List.mem_append_left _ (List.mem_append_left _ hen))

set_option maxHeartbeats 2000000 in
/-- Successful `submit_edited_question` run: one sealed record is
appended whose `feedback` column is the stored feedback text, and the
event log only grows. -/
theorem submit_edited_seal_spec (st : SessionState)
    (hq : ¬ pyStrip (st.edited_question.getD "") = "")
    (hstage : st.stage = "edit_question")
    (htimers : ∃ c d e : Nat, st.stage_timers =
      [("show_feedback_start", c), ("show_feedback_duration", d),
        ("edit_question_start", e)]) :
    ∃ st3 : SessionState, submit_edited_question st = (st3, none) ∧
      (∃ sealed : IterationRecord, st3.responses = st.responses ++ [sealed] ∧
        sealed.feedback = st.current_iteration_data.feedback.getD "") ∧
      (∀ en : LogEntry, en ∈ st.event_log → en ∈ st3.event_log) := by
  obtain ⟨c0, d0, e0, htimers⟩ := htimers
  unfold submit_edited_question start_iteration logger_flush end_stage_timer
    start_stage_timer send_marker log_event
  dsimp only
  rw [hstage, htimers, if_neg hq]
  rw [show ("edit_question" ++ "_start" : String) = "edit_question_start" from rfl]
  have hlk : dictLookup
      [("show_feedback_start", c0), ("show_feedback_duration", d0), ("edit_question_start", e0)]
      "edit_question_start" = some e0 := by
    unfold dictLookup
    rw [List.find?_cons_of_neg _ (by simp), List.find?_cons_of_neg _ (by simp),
      List.find?_cons_of_pos _ (by simp)]
    rfl
  cases hT : dictLookup
      [("show_feedback_start", c0), ("show_feedback_duration", d0), ("edit_question_start", e0)]
      "edit_question_start" with
  | none => exact Option.noConfusion (hlk.symm.trans hT)
  | some t0 =>
  dsimp only
  by_cases h45 : 45 ≤ st.iteration + 1
  · rw [if_pos h45]
    refine ⟨_, rfl, ⟨_, rfl, rfl⟩, ?_⟩
    intro en hen
    exact List.mem_append_left _ (List.mem_append_left _ (List.mem_append_left _
      (List.mem_append_left _ hen)))
  · rw [if_neg h45]
    refine ⟨_, rfl, ⟨_, rfl, rfl⟩, ?_⟩
    intro en hen
    exact List.mem_append_left _ (List.mem_append_left _ (List.mem_append_left _
      (List.mem_append_left _ (List.mem_append_left _ hen))))

/-- C7: when feedback generation raises a quota error for a trial
whose condition is `related`, the trial proceeds through `survey` and
`edit_question`; the sealed Trial Record's `feedback` field equals the
predefined quota-fallback string for the `related` condition, and the
event log contains an `AI feedback generated` entry whose data carries
that fallback text (recording the quota failure). -/
theorem quota_error_related_fallback (st : SessionState) (errMsg : String)
    (hq1 : ¬ pyStrip (st.user_question.getD "") = "")
    (hq2 : ¬ pyStrip (st.user_question.getD "") = "?")
    (hquota : strContains (pyLower errMsg) "quota" = true)
    (hcond : conditionOf st = "related")
    (hcur : st.curiosity ≠ none) (hacc : st.accept_feedback ≠ none)
    (hrel : st.relatedness.join ≠ none)
    (hedit : ¬ pyStrip (st.edited_question.getD "") = "")
    (htimers : st.stage_timers = []) (hpend : st.pending_events = []) :
    ∃ st1 st2 st3 : SessionState,
      submit_question st (LLMResult.raise errMsg) = (st1, none) ∧
      st1.current_iteration_data.feedback = some quotaFallbackSuggestion ∧
      (∃ en ∈ st1.event_log, en.event = "AI feedback generated" ∧
        ("feedback", quotaFallbackSuggestion) ∈ en.data) ∧
      submit_survey st1 = (st2, none) ∧
      submit_edited_question st2 = (st3, none) ∧
      (∃ sealed : IterationRecord, st3.responses = st.responses ++ [sealed] ∧
        sealed.feedback = quotaFallbackSuggestion) ∧
      (∃ en ∈ st3.event_log, en.event = "AI feedback generated" ∧
        ("feedback", quotaFallbackSuggestion) ∈ en.data) := by
  have hfb : handle_api_error errMsg (dictGetD st.condition_mapping
      (dictGetD st.paragraph_mapping st.iteration st.iteration) "no_feedback") =
      quotaFallbackSuggestion := by
    unfold conditionOf origIndexOf at hcond
    rw [hcond]
    unfold handle_api_error
    rw [hquota, Bool.or_true, if_pos rfl, if_neg (by decide)]
  obtain ⟨st1, hrun1, hfb1, hcur1, hacc1, hrel1, hedit1, hiter1, hpm1, hcm1, hresp1,
    hstage1, htm1, hpe1, hen1⟩ := submit_question_raise_spec st errMsg hq1 hq2 htimers hpend
  have hval1 : ¬(dictGetD st1.condition_mapping
      (dictGetD st1.paragraph_mapping st1.iteration st1.iteration) "no_feedback" ≠
        "no_feedback" ∧ st1.relatedness.join = none) := by
    rw [hcm1, hpm1, hiter1, hrel1]
    exact fun h => hrel h.2
  obtain ⟨st2, hrun2, hfb2, hedit2, hiter2, hpm2, hcm2, hresp2, hstage2, htm2, hmono2⟩ :=
    submit_survey_ok_spec st1 (hcur1 ▸ hcur) (hacc1 ▸ hacc) hval1 hstage1 htm1 hpe1
  have hedit2' : ¬ pyStrip (st2.edited_question.getD "") = "" := by
    rw [hedit2, hedit1]
    exact hedit
  obtain ⟨st3, hrun3, ⟨sealed, hseal, hsealfb⟩, hmono3⟩ :=
    submit_edited_seal_spec st2 hedit2' hstage2 htm2
  obtain ⟨en, henmem, henev, hendata⟩ := hen1
  refine ⟨st1, st2, st3, hrun1, ?_, ⟨en, henmem, henev, hfb ▸ hendata⟩, hrun2, hrun3,
    ⟨sealed, ?_, ?_⟩, ⟨en, hmono3 en (hmono2 en henmem), henev, hfb ▸ hendata⟩⟩
  · rw [hfb1, hfb]
  · rw [hseal, hresp2, hresp1]
  · rw [hsealfb, hfb2, hfb1, Option.getD_some, hfb]

/-- A concrete trial whose stimulus resolves to the `related`
condition, poised at `ask_question` with all later answers filled in. -/
def relatedQuotaState : SessionState :=
  { stage := "ask_question", iteration := 0,
    paragraph_mapping := [(0, 0)], condition_mapping := [(0, "related")],
    user_question := some "이 이론의 한계는 무엇일까?",
    curiosity := some "5", relatedness := some (some "4"), accept_feedback := some "예",
    edited_question := some "이 이론을 확장할 새로운 방법은 무엇일까?" }

/-- Witness for C7: a concrete quota error on a `related` trial
(scenario C). -/
theorem quota_error_related_fallback_witness :
    ((¬ pyStrip (relatedQuotaState.user_question.getD "") = "") ∧
      (¬ pyStrip (relatedQuotaState.user_question.getD "") = "?") ∧
      strContains (pyLower "insufficient_quota: billing hard limit reached") "quota" = true ∧
      conditionOf relatedQuotaState = "related" ∧
      relatedQuotaState.stage_timers = [] ∧ relatedQuotaState.pending_events = []) ∧
    (∃ st1 st2 st3 : SessionState,
      submit_question relatedQuotaState
          (LLMResult.raise "insufficient_quota: billing hard limit reached") = (st1, none) ∧
      st1.current_iteration_data.feedback = some quotaFallbackSuggestion ∧
      (∃ en ∈ st1.event_log, en.event = "AI feedback generated" ∧
        ("feedback", quotaFallbackSuggestion) ∈ en.data) ∧
      submit_survey st1 = (st2, none) ∧
      submit_edited_question st2 = (st3, none) ∧
      (∃ sealed : IterationRecord, st3.responses = relatedQuotaState.responses ++ [sealed] ∧
        sealed.feedback = quotaFallbackSuggestion) ∧
      (∃ en ∈ st3.event_log, en.event = "AI feedback generated" ∧
        ("feedback", quotaFallbackSuggestion) ∈ en.data)) :=
  ⟨⟨by decide, by decide, by decide, by decide, rfl, rfl⟩,
    quota_error_related_fallback relatedQuotaState
      "insufficient_quota: billing hard limit reached" (by decide) (by decide) (by decide)
      (by decide) (by decide) (by decide) (by decide) (by decide) rfl rfl⟩

/-! ## C8: the event log under batching -/

/-- One logging action of the program: a direct `log_event` append, a
batched `EventLogger.add_event` append, or an explicit
`EventLogger.flush`. -/
inductive LogOp where
  | direct (desc : String) (data : List (String × String))
  | batched (desc : String) (data : List (String × String))
  | flush
deriving DecidableEq, Repr

/-- Run one logging action against the session state. -/
def applyLogOp (st : SessionState) : LogOp → SessionState
  | LogOp.direct desc data => log_event st desc data
  | LogOp.batched desc data => log_event_batched st desc data
  | LogOp.flush => logger_flush st

/-- Run a sequence of logging actions left to right. -/
def runLogOps (st : SessionState) : List LogOp → SessionState
  | [] => st
  | op :: ops => runLogOps (applyLogOp st op) ops

theorem applyLogOp_event_log (st : SessionState) (op : LogOp) :
    ∃ t, (applyLogOp st op).event_log = st.event_log ++ t := by
  cases op with
  | direct desc data => exact ⟨_, rfl⟩
  | batched desc data =>
    unfold applyLogOp log_event_batched logger_add_event
    dsimp only
    split
    · exact ⟨_, rfl⟩
    · exact ⟨[], (List.append_nil _).symm⟩
  | flush => exact ⟨_, rfl⟩

/-- C8 (amended): the event log is append-only — under any sequence of
direct appends, batched appends and flushes it only ever grows at its
end, so entries already in the log are never reordered or deleted.
The cross-path source-order half of the claim fails: see the
counterexample, where an entry buffered by the batching logger is
flushed after direct entries generated later. -/
theorem event_log_append_only (st : SessionState) (ops : List LogOp) :
    ∃ t, (runLogOps st ops).event_log = st.event_log ++ t := by
  induction ops generalizing st with
  | nil => exact ⟨[], (List.append_nil _).symm⟩
  | cons op ops ih =>
    obtain ⟨t1, h1⟩ := applyLogOp_event_log st op
    obtain ⟨t2, h2⟩ := ih (applyLogOp st op)
    refine ⟨t1 ++ t2, ?_⟩
    rw [runLogOps, h2, h1, List.append_assoc]

/-- A session sitting at the novelty survey with both ratings chosen,
so `submit_novelty_survey` accepts the submission. -/
def noveltySurveyState : SessionState :=
  { stage := "novelty_survey",
    novelty_rating := some "3",
    difficulty_rating := some "2" }

/-- C8 (counterexample): source order is NOT preserved across the two
logging paths.  `submit_novelty_survey` buffers its own summary entry
(generated at time 1) in the batching logger but writes the following
marker (time 2) and stage-transition entry (time 3) directly, so once
the buffer is flushed the log lists the earliest-generated of the
three entries last. -/
theorem event_log_cross_path_reorder_cex :
    ((logger_flush (submit_novelty_survey noveltySurveyState).1).event_log.map
        (fun en => (en.timestamp, en.event)) =
      [(0, "MARKER: novelty_survey_end"),
       (2, "MARKER: question_input_start"),
       (3, "Stage transition: novelty_survey -> ask_question"),
       (1, "Novelty and difficulty survey submitted")]) ∧
    ¬ ((logger_flush (submit_novelty_survey noveltySurveyState).1).event_log.map
        (fun en => en.timestamp)).Pairwise (fun a b => a ≤ b) := by
  exact ⟨by decide, by decide⟩
